import Mathlib

/-!
# Lightpack / AmbilightUSB capture-and-drive pipeline

A shallow embedding of

* `AmbilightUSB_PC/src/ambilightusb.cpp` (class `ambilightUsb`): settings, colour
  reduction, change detection and the USB HID device link;
* `Software/grab/NvFBCGrabber.cpp` (class `NvFBCGrabber`): the NvFBC capture backend.

Conventions of the embedding.

* A C++ `int` is an `Int`; `/` and `%` on `int` are `Int.tdiv` and `Int.tmod`
  (truncation toward zero).  The increments and the product of `readSettings` are taken
  modulo 2^32 into the range of a 32-bit `int` (`wrapInt32`), as two's complement
  hardware does; a division by zero ends the run and is the value `none`.
* A product of an `int` by a `double` constant is the IEEE 754 binary64 product, rounded
  to nearest (ties to even), converted back by truncation toward zero.
* Arrays `int a[4][3]` are functions `Fin 4 → Fin 3 → Int`.
* The outside world (USB device, vendor library) is a response function from the
  number of the call to its outcome, threaded through an explicit state that also
  keeps a trace of the calls made.
-/

namespace ambilightUsb

/-! ## Constants of `ambilightusb.h` -/

/-- The enumerators and command bytes declared in `ambilightusb.h`, which the source
file uses by name only: the indices of the four LEDs, of the three colour channels
and the three command identifiers. -/
structure Consts where
  LEFT_UP : Fin 4
  LEFT_DOWN : Fin 4
  RIGHT_UP : Fin 4
  RIGHT_DOWN : Fin 4
  R : Fin 3
  G : Fin 3
  B : Fin 3
  CMD_RIGHT_SIDE : Nat
  CMD_LEFT_SIDE : Nat
  CMD_OFF_ALL : Nat
  deriving DecidableEq

/-- A concrete choice of the header constants, used to evaluate the code. -/
def stdConsts : Consts :=
  { LEFT_UP := 0, LEFT_DOWN := 1, RIGHT_UP := 2, RIGHT_DOWN := 3,
    R := 0, G := 1, B := 2,
    CMD_RIGHT_SIDE := 1, CMD_LEFT_SIDE := 2, CMD_OFF_ALL := 3 }

/-! ## Settings -/

/-- The values `readSettings` takes from the settings store. -/
structure Settings where
  step_x : Int
  step_y : Int
  ambilight_width : Int
  ambilight_height : Int
  usb_send_data_timeout : Int
  deriving DecidableEq, Repr

/-- The value of a 32-bit `int` that holds the result `x` of an arithmetic operation:
`x` modulo 2^32, in the range -2^31 .. 2^31 - 1. -/
def wrapInt32 (x : Int) : Int :=
  (x + 2147483648) % 4294967296 - 2147483648

/-- `ambilightUsb::readSettings`, lines 72-80: the value stored in
`pixels_count_for_each_led`, a 32-bit `int`.  A zero step is a division by zero. -/
def readSettings (s : Settings) : Option Int :=
  if s.step_x = 0 ∨ s.step_y = 0 then none
  else
    let x_pixels : Int := Int.tdiv s.ambilight_width s.step_x
    let y_pixels : Int := Int.tdiv s.ambilight_height s.step_y
    let x_pixels :=
      if Int.tmod s.ambilight_width s.step_x ≠ 0 then wrapInt32 (x_pixels + 1) else x_pixels
    let y_pixels :=
      if Int.tmod s.ambilight_height s.step_y ≠ 0 then wrapInt32 (y_pixels + 1) else y_pixels
    some (wrapInt32 (x_pixels * y_pixels))

/-! ## Colour reduction -/

/-- One sampled pixel: the three 8-bit components the sampling loops add into
`colors[led_index]` (`(rgb >> 16) & 0xff`, ... on WIN32; `red >> 8`, ... on X11). -/
structure Pixel where
  red : Int
  green : Int
  blue : Int
  deriving DecidableEq, Repr

/-- The type of `int colors[4][3]` and of `colors_save`. -/
abbrev Colors := Fin 4 → Fin 3 → Int

/-- The samples of one tick: for each LED the pixels added into `colors[led_index]`,
in the order of the loops. -/
abbrev Samples := Fin 4 → List Pixel

/-- The range of `for(int led_index=0; led_index < 4; led_index++)`. -/
def ledIndices : List (Fin 4) := [0, 1, 2, 3]

/-- The range of `for(int color=0; color < 3; color++)`. -/
def colorIndices : List (Fin 3) := [0, 1, 2]

/-- The assignment `c[led][color] = v`. -/
def setColor (c : Colors) (led : Fin 4) (color : Fin 3) (v : Int) : Colors :=
  Function.update c led (Function.update (c led) color v)

/-- `ambilightUsb::clearColorSave`: every entry of `colors_save` is set to 0. -/
def clearColorSave (_colors_save : Colors) : Colors :=
  ledIndices.foldl (fun c i => colorIndices.foldl (fun c d => setColor c i d 0) c) (fun _ _ => 0)

/-- The three `+=` done for one sampled pixel (lines 258-260 and 324-326). -/
def addSample (k : Consts) (c : Colors) (led : Fin 4) (p : Pixel) : Colors :=
  let c := setColor c led k.R (c led k.R + p.red)
  let c := setColor c led k.G (c led k.G + p.green)
  setColor c led k.B (c led k.B + p.blue)

/-- The channel sums: `colors` starts as all zero (line 236) and every sample of every
LED is added. -/
def accumulate (k : Consts) (samples : Samples) : Colors :=
  ledIndices.foldl
    (fun c led => (samples led).foldl (fun c p => addSample k c led p) c)
    (fun _ _ => 0)

/-- Lines 333-345: each channel is divided by `pixels_count_for_each_led` and then
by 8. -/
def averageAndReduceDepth (pixels_count_for_each_led : Int) (c : Colors) : Colors :=
  ledIndices.foldl
    (fun c led => colorIndices.foldl
      (fun c color =>
        let c := setColor c led color (Int.tdiv (c led color) pixels_count_for_each_led)
        setColor c led color (Int.tdiv (c led color) 8))
      c)
    c

/-- The number of binary digits of `n`, by halving at most `fuel` times. -/
def bitLength : Nat → Nat → Nat
  | 0, _ => 0
  | fuel + 1, n => if n = 0 then 0 else bitLength fuel (n / 2) + 1

/-- The natural number `n` rounded to 53 significant binary digits, to nearest and to
even on a tie: the value a binary64 holds for a product whose exact value is `n` (up to
the common power of two). -/
def roundTo53 (n : Nat) : Nat :=
  if bitLength n n ≤ 53 then n
  else
    let shift := bitLength n n - 53
    let q := n / 2 ^ shift
    let rest := n % 2 ^ shift
    let half := 2 ^ (shift - 1)
    (if half < rest ∨ (rest = half ∧ q % 2 = 1) then q + 1 else q) * 2 ^ shift

/-- The compound assignment `v *= q` of an `int` by a `double` constant `q`, where `q` is
the binary64 number `mantissa / 2 ^ scale`: `v` is converted to `double` (exactly), the
product is rounded to binary64, and the result is converted back to `int` by truncation
toward zero. -/
def mulTrunc (v : Int) (mantissa scale : Nat) : Int :=
  let t : Nat := roundTo53 (v.natAbs * mantissa) / 2 ^ scale
  if v < 0 then -(t : Int) else (t : Int)

/-- Lines 349-354: white balance, `R *= 0.7`, `G *= 1`, `B *= 1.2`.  The binary64
nearest to 0.7 is 6305039478318694 / 2^53 (`0x1.6666666666666p-1`), the one nearest
to 1.2 is 5404319552844595 / 2^52 (`0x1.3333333333333p+0`). -/
def whiteBalance (k : Consts) (c : Colors) : Colors :=
  ledIndices.foldl
    (fun c led =>
      let c := setColor c led k.R (mulTrunc (c led k.R) 6305039478318694 53)
      let c := setColor c led k.G (c led k.G * 1)
      setColor c led k.B (mulTrunc (c led k.B) 5404319552844595 52))
    c

/-- Lines 236-354: the colours of one tick computed from its samples.  Dividing by a
zero `pixels_count_for_each_led` ends the run. -/
def reduceColors (k : Consts) (pixels_count_for_each_led : Int) (samples : Samples) :
    Option Colors :=
  if pixels_count_for_each_led = 0 then none
  else some (whiteBalance k (averageAndReduceDepth pixels_count_for_each_led
          (accumulate k samples)))

/-- The inner loop of lines 357-363 for one LED, over the remaining channel indices:
at the first channel that differs `write_colors` becomes true, that channel alone is
copied into `colors_save`, and `break` leaves the loop. -/
def compareColor (colors : Colors) (led : Fin 4) :
    List (Fin 3) → Bool × Colors → Bool × Colors
  | [], st => st
  | color :: rest, (write_colors, colors_save) =>
    if colors_save led color ≠ colors led color then
      (true, setColor colors_save led color (colors led color))
    else
      compareColor colors led rest (write_colors, colors_save)

/-- Lines 356-364: change detection and snapshot update.  The result is the final
`write_colors` (false before the loop, line 226) and the new `colors_save`. -/
def compareAndSave (colors_save colors : Colors) : Bool × Colors :=
  ledIndices.foldl (fun st led => compareColor colors led colorIndices st)
    (false, colors_save)

/-- The reduce-and-compare step of a tick (lines 236-364): the colours, `write_colors`
and the new `colors_save`. -/
def reduceAndCompare (k : Consts) (pixels_count_for_each_led : Int) (samples : Samples)
    (colors_save : Colors) : Option (Colors × Bool × Colors) :=
  match reduceColors k pixels_count_for_each_led samples with
  | none => none
  | some colors => some (colors, compareAndSave colors_save colors)

/-! ## Device link -/

/-- The behaviour of the USB device over a run: the outcome (`true` for error code 0)
of the n-th answered call of `usbhidOpenDevice`, `usbhidSetReport` or
`usbhidGetReport`, counted from 0 in the order the calls are made. -/
abbrev Device := Nat → Bool

/-- One call into the HID library, with the report sent and the outcome. -/
inductive UsbCall where
  | setReport (buffer : List Nat) (ok : Bool)
  | getReport (ok : Bool)
  | openDevice (ok : Bool)
  | closeDevice
  deriving DecidableEq, Repr

/-- The device link: `dev` is `true` when the handle is not `NULL`, `calls` counts the
answered library calls, `trace` lists all library calls, oldest first. -/
structure Usb where
  dev : Bool
  calls : Nat
  trace : List UsbCall
  deriving DecidableEq, Repr

/-- `ambilightUsb::openDevice`: `dev` is reset to `NULL` and `usbhidOpenDevice` stores a
handle in it exactly when it reports success. -/
def openDevice (d : Device) (u : Usb) : Bool × Usb :=
  let ok := d u.calls
  (ok, { dev := ok, calls := u.calls + 1, trace := u.trace ++ [UsbCall.openDevice ok] })

/-- `ambilightUsb::readDataFromDevice`. -/
def readDataFromDevice (d : Device) (u : Usb) : Bool × Usb :=
  let ok := d u.calls
  (ok, { u with calls := u.calls + 1, trace := u.trace ++ [UsbCall.getReport ok] })

/-- `ambilightUsb::writeBufferToDevice`, sending the report `write_buffer`. -/
def writeBufferToDevice (d : Device) (write_buffer : List Nat) (u : Usb) : Bool × Usb :=
  let ok := d u.calls
  (ok, { u with calls := u.calls + 1,
                trace := u.trace ++ [UsbCall.setReport write_buffer ok] })

/-- `ambilightUsb::tryToReopenDevice`: `usbhidCloseDevice(dev)` and then `openDevice()`. -/
def tryToReopenDevice (d : Device) (u : Usb) : Bool × Usb :=
  let u := { u with trace := u.trace ++ [UsbCall.closeDevice] }
  let r := openDevice d u
  if r.1 then (true, r.2) else (false, r.2)

/-- `ambilightUsb::writeBufferToDeviceWithCheck`. -/
def writeBufferToDeviceWithCheck (d : Device) (write_buffer : List Nat) (u : Usb) :
    Bool × Usb :=
  let w := writeBufferToDevice d write_buffer u
  if !w.1 then
    let r := tryToReopenDevice d w.2
    if r.1 then
      writeBufferToDevice d write_buffer r.2
    else
      (false, r.2)
  else
    (true, w.2)

/-! ## The tick -/

/-- The conversion `(unsigned char)v` of an `int`. -/
def toUChar (v : Int) : Nat :=
  (v % 256).toNat

/-- The assignments to `write_buffer[1]` .. `write_buffer[7]` of lines 367-374 and
380-387: a command byte and the colours of two LEDs. -/
def fillReport (k : Consts) (write_buffer : List Nat) (cmd : Nat) (colors : Colors)
    (up down : Fin 4) : List Nat :=
  let b := write_buffer.set 1 cmd
  let b := b.set 2 (toUChar (colors up k.R))
  let b := b.set 3 (toUChar (colors up k.G))
  let b := b.set 4 (toUChar (colors up k.B))
  let b := b.set 5 (toUChar (colors down k.R))
  let b := b.set 6 (toUChar (colors down k.G))
  b.set 7 (toUChar (colors down k.B))

/-- The two build variants of `updateColorsIfChanges`; the X11 variant carries whether
`display` is open. -/
inductive BuildVariant where
  | WIN32
  | X11 (displayOpen : Bool)
  deriving DecidableEq, Repr

/-- The fields of `ambilightUsb` the tick reads and writes. -/
structure Ambilight where
  colors_save : Colors
  pixels_count_for_each_led : Int
  write_buffer : List Nat
  usb : Usb

/-- `ambilightUsb::updateColorsIfChanges`.  `samples` are the pixels the sampling loops
add into `colors`, `elapsed` is the value of `timeEval->howLongItEnd()`.  The result is
the returned number and the object after the call; `none` is a division by zero. -/
def updateColorsIfChanges (k : Consts) (platform : BuildVariant) (d : Device) (elapsed : Int)
    (samples : Samples) (s : Ambilight) : Option (Int × Ambilight) :=
  -- lines 228-232
  let chk := if s.usb.dev = false then tryToReopenDevice d s.usb else (true, s.usb)
  if !chk.1 then some (-2, { s with usb := chk.2 })
  else
    let s := { s with usb := chk.2 }
    -- lines 268-271
    if platform = BuildVariant.X11 false then some (-2, s)
    else
      -- lines 236-364
      match reduceAndCompare k s.pixels_count_for_each_led samples s.colors_save with
      | none => none
      | some (colors, write_colors, colors_save) =>
        let s := { s with colors_save := colors_save }
        if write_colors then
          -- lines 367-378
          let buf := fillReport k s.write_buffer k.CMD_RIGHT_SIDE colors k.RIGHT_UP k.RIGHT_DOWN
          let w := writeBufferToDeviceWithCheck d buf s.usb
          let s := { s with write_buffer := buf, usb := w.2 }
          if !w.1 then some (-3, s)
          else
            -- lines 380-391
            let buf := fillReport k s.write_buffer k.CMD_LEFT_SIDE colors k.LEFT_UP k.LEFT_DOWN
            let w := writeBufferToDeviceWithCheck d buf s.usb
            let s := { s with write_buffer := buf, usb := w.2 }
            if !w.1 then some (-3, s)
            else some (elapsed, s)
        else
          -- lines 395-398
          let r := readDataFromDevice d s.usb
          let s := { s with usb := r.2 }
          if !r.1 then some (-4, s)
          else some (elapsed, s)

/-- The object as the constructor leaves it once `readSettings` has stored
`pixels_count_for_each_led`: cleared `colors_save`, zeroed `write_buffer` (its first
eight bytes), and the device link in the given state. -/
def initial (pixels_count_for_each_led : Int) (usb : Usb) : Ambilight :=
  { colors_save := clearColorSave (fun _ _ => 0),
    pixels_count_for_each_led := pixels_count_for_each_led,
    write_buffer := List.replicate 8 0,
    usb := usb }

/-! ## Vocabulary of the device-link properties -/

/-- A report whose first write is the call number `n` fails: the first write fails and
either the reopen (call `n + 1`) fails or the retried write (call `n + 2`) fails. -/
def reportFails (d : Device) (n : Nat) : Bool :=
  !d n && !(d (n + 1) && d (n + 2))

/-- The number of answered library calls a report starting at call `n` makes. -/
def reportCalls (d : Device) (n : Nat) : Nat :=
  if d n then 1 else if d (n + 1) then 3 else 2

/-- The library calls a report starting at call `n` makes, in order. -/
def reportTrace (d : Device) (write_buffer : List Nat) (n : Nat) : List UsbCall :=
  if d n then [UsbCall.setReport write_buffer true]
  else if d (n + 1) then
    [UsbCall.setReport write_buffer false, UsbCall.closeDevice, UsbCall.openDevice true,
     UsbCall.setReport write_buffer (d (n + 2))]
  else
    [UsbCall.setReport write_buffer false, UsbCall.closeDevice, UsbCall.openDevice false]

/-- The device check at the entry of a tick fails: the handle is `NULL` and the reopen
(the next answered call) fails. -/
def deviceUnavailable (d : Device) (u : Usb) : Bool :=
  !u.dev && !d u.calls

/-- The number of the first library call a tick makes after a passed device check. -/
def ioStart (u : Usb) : Nat :=
  if u.dev then u.calls else u.calls + 1

/-- The reports written in a trace, oldest first. -/
def writesOf : List UsbCall → List (List Nat)
  | [] => []
  | UsbCall.setReport b _ :: rest => b :: writesOf rest
  | _ :: rest => writesOf rest

/-- The number of `usbhidOpenDevice` calls in a trace. -/
def opensOf : List UsbCall → Nat
  | [] => 0
  | UsbCall.openDevice _ :: rest => opensOf rest + 1
  | _ :: rest => opensOf rest

/-- The number of `usbhidGetReport` calls in a trace. -/
def readsOf : List UsbCall → Nat
  | [] => 0
  | UsbCall.getReport _ :: rest => readsOf rest + 1
  | _ :: rest => readsOf rest

/-- The number of entries in which two colour tables differ. -/
def differingEntries (a b : Colors) : Nat :=
  (ledIndices.map (fun led => (colorIndices.filter (fun c => a led c ≠ b led c)).length)).sum

/-- The entries of a colour table, LED by LED, as lists. -/
def tableOf (c : Colors) : List (List Int) :=
  ledIndices.map (fun led => colorIndices.map (fun color => c led color))

/-- A sampled white pixel. -/
def whitePixel : Pixel := { red := 255, green := 255, blue := 255 }

/-- A sampled black pixel. -/
def blackPixel : Pixel := { red := 0, green := 0, blue := 0 }

/-- Samples in which LED 0 sees the given pixel and the other three LEDs see black. -/
def onlyLedZero (p : Pixel) : Samples :=
  fun led => if led = 0 then [p] else [blackPixel]

/-- The header constants with the three colour channels stored at the given indices;
the other constants are those of `stdConsts`. -/
def constsWithChannels (r g b : Fin 3) : Consts :=
  { stdConsts with R := r, G := g, B := b }

/-- The six ways the header can number the colour channels. -/
def channelOrders : List Consts :=
  [constsWithChannels 0 1 2, constsWithChannels 0 2 1, constsWithChannels 1 0 2,
   constsWithChannels 1 2 0, constsWithChannels 2 0 1, constsWithChannels 2 1 0]

/-- A pixel that is 255 in the channels stored at an index below `n` and 0 in the
others. -/
def litChannels (k : Consts) (n : Nat) : Pixel :=
  { red := if k.R.val < n then 255 else 0,
    green := if k.G.val < n then 255 else 0,
    blue := if k.B.val < n then 255 else 0 }

/-- Settings of a one-by-one zone sampled with steps 2 and 2: one sample per LED in
both build variants. -/
def onePixelSettings : Settings :=
  { step_x := 2, step_y := 2, ambilight_width := 1, ambilight_height := 1,
    usb_send_data_timeout := 0 }

/-- A device link with an open handle and no call made yet. -/
def openedUsb : Usb := { dev := true, calls := 0, trace := [] }

/-- A sequence of ticks run one after the other on the same device, each with its own
samples; the result is the list of returned numbers and the final object. -/
def runTicks (k : Consts) (platform : BuildVariant) (d : Device) (elapsed : Int) :
    List Samples → Ambilight → Option (List Int × Ambilight)
  | [], s => some ([], s)
  | samples :: rest, s =>
    match updateColorsIfChanges k platform d elapsed samples s with
    | none => none
    | some (ret, s1) =>
      match runTicks k platform d elapsed rest s1 with
      | none => none
      | some (rets, s2) => some (ret :: rets, s2)

/-! ## The sampling loops -/

/-- The values of the loop variable of `for(int x=0; x < limit; x += step)` (or
`x <= limit` when `inclusive`), from the value `x` on, at most `fuel` of them.  With a
positive step the loop from 0 ends within `limit + 1` rounds; with a step of zero or
less it does not end, and the model stops when the fuel runs out. -/
def loopValues (inclusive : Bool) (limit step : Int) : Nat → Int → List Int
  | 0, _ => []
  | fuel + 1, x =>
    if (if inclusive then x ≤ limit else x < limit) then
      x :: loopValues inclusive limit step fuel (x + step)
    else []

/-- Fuel that lets a loop from 0 with a positive step run to its end. -/
def loopFuel (limit : Int) : Nat :=
  limit.toNat + 1

/-- The desktop: its size and the colour of the pixel at each position. -/
structure Desktop where
  desktop_width : Int
  desktop_height : Int
  pixel : Int → Int → Pixel

/-- The pixel a sampling loop grabs for the LED `led_index` at the loop variables `x`
and `y` (lines 245-255 and 284-295). -/
def grabbedPixel (k : Consts) (desk : Desktop) (led_index : Fin 4) (x y : Int) : Pixel :=
  desk.pixel
    (if led_index = k.LEFT_UP ∨ led_index = k.LEFT_DOWN then x
     else (desk.desktop_width - 1) - x)
    (if led_index = k.LEFT_UP ∨ led_index = k.RIGHT_UP then
       Int.tdiv desk.desktop_height 2 - y
     else Int.tdiv desk.desktop_height 2 + y)

/-- The two inner loops over `x` and `y` for one LED: the pixels grabbed, in order. -/
def ledPixels (inclusive : Bool) (k : Consts) (desk : Desktop) (s : Settings)
    (led_index : Fin 4) : List Pixel :=
  (loopValues inclusive s.ambilight_width s.step_x (loopFuel s.ambilight_width) 0).flatMap
    (fun x =>
      (loopValues inclusive s.ambilight_height s.step_y (loopFuel s.ambilight_height) 0).map
        (fun y => grabbedPixel k desk led_index x y))

/-- The WIN32 sampling loops (lines 241-263), with `x <= ambilight_width` and
`y <= ambilight_height`: every grabbed pixel is added into `colors[led_index]`. -/
def samplesWIN32 (k : Consts) (desk : Desktop) (s : Settings) : Samples :=
  fun led_index => ledPixels true k desk s led_index

/-- The X11 sampling loops (lines 281-304), with `x < ambilight_width` and
`y < ambilight_height`: the pixels stored in `xcolors[0]`, `xcolors[1]`, ... in order;
the length of the list is the final `xcol_indx`. -/
def xcolorsX11 (k : Consts) (desk : Desktop) (s : Settings) : List Pixel :=
  ledIndices.flatMap (fun led_index => ledPixels false k desk s led_index)

/-- Lines 322-328: for each LED the entries `xcolors[i + pixels_count_for_each_led *
led_index]`, `i` from 0 below `pixels_count_for_each_led`, that the X11 variant adds
into `colors[led_index]`.  An index the loops did not write has no entry. -/
def samplesX11 (k : Consts) (desk : Desktop) (s : Settings)
    (pixels_count_for_each_led : Int) : Samples :=
  fun led_index =>
    (List.range pixels_count_for_each_led.toNat).filterMap
      (fun i => (xcolorsX11 k desk s)[i + pixels_count_for_each_led.toNat * led_index.val]?)

/-- The samples of a tick of the given build variant on the given desktop. -/
def sampleDesktop (platform : BuildVariant) (k : Consts) (desk : Desktop) (s : Settings)
    (pixels_count_for_each_led : Int) : Samples :=
  match platform with
  | BuildVariant.WIN32 => samplesWIN32 k desk s
  | BuildVariant.X11 _ => samplesX11 k desk s pixels_count_for_each_led

/-- A desktop of 1920 by 1080 white pixels. -/
def whiteDesktop : Desktop :=
  { desktop_width := 1920, desktop_height := 1080, pixel := fun _ _ => whitePixel }

/-- The settings of the scenario of the specification: a 5 by 5 zone sampled with steps
6 and 1. -/
def scenarioSettings : Settings :=
  { step_x := 6, step_y := 1, ambilight_width := 5, ambilight_height := 5,
    usb_send_data_timeout := 0 }

end ambilightUsb

namespace NvFBCGrabber

/-! ## Types of the vendor interface and of `GrabberBase.hpp` -/

/-- The result codes of `NvFBC.h` the source names, and every other code. -/
inductive NVFBCRESULT where
  | NVFBC_SUCCESS
  | NVFBC_ERROR_PROTECTED_CONTENT
  | NVFBC_ERROR_INVALIDATED_SESSION
  | NVFBC_ERROR_INSUFFICIENT_PRIVILEGES
  | NVFBC_ERROR_OTHER (code : Nat)
  deriving DecidableEq, Repr

/-- `enum GrabResult` of `GrabberBase.hpp`. -/
inductive GrabResult where
  | GrabResultOk
  | GrabResultFrameNotReady
  | GrabResultError
  deriving DecidableEq, Repr

/-- A `QRect`: origin and size. -/
structure QRect where
  x : Int
  y : Int
  width : Int
  height : Int
  deriving DecidableEq, Repr

/-- `struct ScreenInfo`: a rectangle and the monitor handle (a pointer value). -/
structure ScreenInfo where
  rect : QRect
  handle : Nat
  deriving DecidableEq, Repr

/-- `struct GrabbedScreen`, its fields `screenInfo` and `associatedData`: the
`NvFBCToSys` session of the screen, `none` for a null pointer.  The buffer geometry
(`imgData`, `imgDataSize`, `scale`, `bytesPerRow`) plays no part in session
bookkeeping and is left out. -/
structure GrabbedScreen where
  screenInfo : ScreenInfo
  associatedData : Option Nat
  deriving DecidableEq, Repr

/-- One call into Direct3D / NvFBC made by the grabber, with its outcome, and the
scheduling of the administrator-rights message box. -/
inductive VendorCall where
  | getStatus (adapterIdx : Nat) (res : NVFBCRESULT) (bIsCapturePossible : Bool)
  | enable (res : NVFBCRESULT)
  | create (adapterIdx : Nat) (res : NVFBCRESULT)
  | setUp (session : Nat) (res : NVFBCRESULT)
  | grabFrame (session : Nat) (res : NVFBCRESULT)
  | release (session : Nat)
  | adminMessage
  deriving DecidableEq, Repr

/-- The behaviour of the vendor libraries over a run: what the call number `n` (counted
over all answered calls, from 0) returns if it is a call of the given function.
`direct3DCreate9` gives the monitor handles of the adapters, by adapter index, or `none`
when no interface is created. -/
structure Vendor where
  direct3DCreate9 : Nat → Option (List Nat)
  getStatus : Nat → NVFBCRESULT × Bool
  enable : Nat → NVFBCRESULT
  create : Nat → NVFBCRESULT
  setUp : Nat → NVFBCRESULT
  grabFrame : Nat → NVFBCRESULT

/-- The fields of `NvFBCGrabber` and the state of the world around it: `calls` counts
the answered vendor calls, `live` lists the `NvFBCToSys` sessions created and not yet
released (a session is named by the number of the call that created it), `log` lists
the calls made, oldest first. -/
structure Grabber where
  m_downscale_factor : Nat
  m_reallocation_needed : Bool
  m_admin_message_shown : Bool
  _screensWithWidgets : List GrabbedScreen
  calls : Nat
  live : List Nat
  log : List VendorCall
  deriving DecidableEq, Repr

/-- `NvFBCGrabber::NvFBCGrabber`: the member initialisers. -/
def construct : Grabber :=
  { m_downscale_factor := 100, m_reallocation_needed := true, m_admin_message_shown := false,
    _screensWithWidgets := [], calls := 0, live := [], log := [] }

/-- The conversion `(int) u` of a `UINT`. -/
def toInt32 (u : Nat) : Int :=
  if u % 2 ^ 32 < 2 ^ 31 then ((u % 2 ^ 32 : Nat) : Int) else ((u % 2 ^ 32 : Nat) : Int) - 2 ^ 32

/-- The conversion of an `int` to `UINT` on assignment. -/
def toUInt32 (i : Int) : Nat :=
  (i % 2 ^ 32).toNat

/-- `NvFBCGrabber::onDownscaleFactorChange`. -/
def onDownscaleFactorChange (change : Int) (g : Grabber) : Grabber :=
  if toInt32 g.m_downscale_factor ≠ change then
    { g with m_reallocation_needed := true, m_downscale_factor := toUInt32 change }
  else g

/-- `NvFBCGrabber::isReallocationNeeded`. -/
def isReallocationNeeded (g : Grabber) : Bool :=
  g.m_reallocation_needed

/-- The loop of `NvFBCGrabber::freeScreens`: every tracked screen with a non-null
session has it released. -/
def freeScreensLoop : List GrabbedScreen → Grabber → Grabber
  | [], g => g
  | screen :: rest, g =>
    match screen.associatedData with
    | some fbc_to_sys =>
      freeScreensLoop rest
        { g with live := g.live.filter (fun x => x ≠ fbc_to_sys),
                 log := g.log ++ [VendorCall.release fbc_to_sys] }
    | none => freeScreensLoop rest g

/-- `NvFBCGrabber::freeScreens`. -/
def freeScreens (g : Grabber) : Grabber :=
  { freeScreensLoop g._screensWithWidgets g with _screensWithWidgets := [] }

/-- Lines 149-157: the first adapter index `i`, counted from `i`, whose monitor is
`handle`. -/
def findAdapter (handle : Nat) : List Nat → Nat → Option Nat
  | [], _ => none
  | mon :: rest, i => if mon = handle then some i else findAdapter handle rest (i + 1)

/-- Lines 177-205 of `reallocate`: after `pfn_enable` returned `res`, whether the loop
goes on, and the state.  An insufficient-privileges result schedules the message box
once and sets `m_admin_message_shown`. -/
def afterEnable (res : NVFBCRESULT) (g : Grabber) : Bool × Grabber :=
  if res = NVFBCRESULT.NVFBC_ERROR_INSUFFICIENT_PRIVILEGES then
    if !g.m_admin_message_shown then
      (false, { g with m_admin_message_shown := true,
                       log := g.log ++ [VendorCall.adminMessage] })
    else (false, g)
  else if res ≠ NVFBCRESULT.NVFBC_SUCCESS then (false, g)
  else (true, g)

/-- The loop of `reallocate` (lines 147-258) over the remaining screens, given the
adapter monitors.  The result is the flag `error` and the state. -/
def reallocateLoop (v : Vendor) (adapters : List Nat) :
    List ScreenInfo → Grabber → Bool × Grabber
  | [], g => (false, g)
  | screen :: rest, g =>
    match findAdapter screen.handle adapters 0 with
    | none => (true, g)
    | some adapterIdx =>
      -- lines 165-175
      let st := v.getStatus g.calls
      let g := { g with calls := g.calls + 1,
                        log := g.log ++ [VendorCall.getStatus adapterIdx st.1 st.2] }
      if st.1 ≠ NVFBCRESULT.NVFBC_SUCCESS then (true, g)
      else
        -- lines 178-205
        let en :=
          if !st.2 then
            let res := v.enable g.calls
            afterEnable res { g with calls := g.calls + 1,
                                     log := g.log ++ [VendorCall.enable res] }
          else (true, g)
        if !en.1 then (true, en.2)
        else
          let g := en.2
          -- lines 211-225
          let res := v.create g.calls
          let fbc_to_sys := g.calls
          let g := { g with calls := g.calls + 1,
                            log := g.log ++ [VendorCall.create adapterIdx res] }
          if res ≠ NVFBCRESULT.NVFBC_SUCCESS then (true, g)
          else
            let g := { g with live := g.live ++ [fbc_to_sys] }
            -- lines 228-256
            let res := v.setUp g.calls
            let g := { g with calls := g.calls + 1,
                              log := g.log ++ [VendorCall.setUp fbc_to_sys res] }
            if res ≠ NVFBCRESULT.NVFBC_SUCCESS then (true, g)
            else
              -- line 257
              reallocateLoop v adapters rest
                { g with _screensWithWidgets := g._screensWithWidgets
                          ++ [{ screenInfo := screen, associatedData := some fbc_to_sys }] }

/-- `NvFBCGrabber::reallocate`.  The result is the returned `bool` and the state;
`none` is the call `pd3d9->Release()` on a null `pd3d9`. -/
def reallocate (v : Vendor) (grabScreens : List ScreenInfo) (g : Grabber) :
    Option (Bool × Grabber) :=
  let g := freeScreens g
  let pd3d9 := v.direct3DCreate9 g.calls
  let g := { g with calls := g.calls + 1 }
  let adapters := match pd3d9 with
    | some monitors => monitors
    | none => []
  let r := reallocateLoop v adapters grabScreens g
  match pd3d9 with
  | none => none
  | some _ =>
    if r.1 then some (false, r.2)
    else some (true, { r.2 with m_reallocation_needed := false })

/-- The loop of `NvFBCGrabber::grabScreens` over the remaining tracked screens; `none`
is a call through a null session pointer. -/
def grabScreensLoop (v : Vendor) : List GrabbedScreen → Grabber → Option (GrabResult × Grabber)
  | [], g => some (GrabResult.GrabResultOk, g)
  | screen :: rest, g =>
    match screen.associatedData with
    | none => none
    | some fbc_to_sys =>
      let res := v.grabFrame g.calls
      let g := { g with calls := g.calls + 1,
                        log := g.log ++ [VendorCall.grabFrame fbc_to_sys res] }
      if res = NVFBCRESULT.NVFBC_ERROR_PROTECTED_CONTENT then
        some (GrabResult.GrabResultError, g)
      else if res = NVFBCRESULT.NVFBC_ERROR_INVALIDATED_SESSION then
        some (GrabResult.GrabResultError, { g with m_reallocation_needed := true })
      else if res ≠ NVFBCRESULT.NVFBC_SUCCESS then
        some (GrabResult.GrabResultError, g)
      else grabScreensLoop v rest g

/-- `NvFBCGrabber::grabScreens`. -/
def grabScreens (v : Vendor) (g : Grabber) : Option (GrabResult × Grabber) :=
  grabScreensLoop v g._screensWithWidgets g

/-! ## Sequences of operations -/

/-- The operations of the grabber the drive loop calls. -/
inductive Op where
  | onDownscaleFactorChange (change : Int)
  | reallocate (grabScreens : List ScreenInfo)
  | grabScreens
  deriving DecidableEq, Repr

/-- What is observed of one operation: whether `onDownscaleFactorChange` was called with
a value different from the stored factor, whether `reallocate` returned true, whether a
grab of `grabScreens` was answered with `NVFBC_ERROR_INVALIDATED_SESSION`. -/
inductive Event where
  | factorChanged
  | factorUnchanged
  | reallocateSucceeded
  | reallocateFailed
  | grabInvalidated
  | grabNotInvalidated
  deriving DecidableEq, Repr

/-- Some grab in the calls was answered with `NVFBC_ERROR_INVALIDATED_SESSION`. -/
def hitInvalidated : List VendorCall → Bool
  | [] => false
  | VendorCall.grabFrame _ res :: rest =>
    decide (res = NVFBCRESULT.NVFBC_ERROR_INVALIDATED_SESSION) || hitInvalidated rest
  | _ :: rest => hitInvalidated rest

/-- One operation: the observation and the state after it. -/
def step (v : Vendor) : Op → Grabber → Option (Event × Grabber)
  | Op.onDownscaleFactorChange change, g =>
    some (if toInt32 g.m_downscale_factor ≠ change then Event.factorChanged
          else Event.factorUnchanged,
          onDownscaleFactorChange change g)
  | Op.reallocate grabScreens, g =>
    match reallocate v grabScreens g with
    | none => none
    | some (true, g1) => some (Event.reallocateSucceeded, g1)
    | some (false, g1) => some (Event.reallocateFailed, g1)
  | Op.grabScreens, g =>
    match grabScreens v g with
    | none => none
    | some (_, g1) =>
      some (if hitInvalidated (g1.log.drop g.log.length) then Event.grabInvalidated
            else Event.grabNotInvalidated, g1)

/-- A sequence of operations: the observations, oldest first, and the final state. -/
def run (v : Vendor) : List Op → Grabber → Option (List Event × Grabber)
  | [], g => some ([], g)
  | op :: rest, g =>
    match step v op g with
    | none => none
    | some (e, g1) =>
      match run v rest g1 with
      | none => none
      | some (es, g2) => some (e :: es, g2)

/-- The value of a flag after a history of observations: cleared by a successful
reallocate, set by a factor change or an invalidated grab, kept otherwise. -/
def flagAfter : Bool → List Event → Bool
  | f, [] => f
  | _, Event.reallocateSucceeded :: rest => flagAfter false rest
  | _, Event.factorChanged :: rest => flagAfter true rest
  | _, Event.grabInvalidated :: rest => flagAfter true rest
  | f, _ :: rest => flagAfter f rest

/-! ## Vocabulary and sample inputs of the grabber properties -/

/-- Every tracked screen carries a session. -/
def Tracked (g : Grabber) : Prop :=
  ∀ sc ∈ g._screensWithWidgets, sc.associatedData ≠ none

instance (g : Grabber) : Decidable (Tracked g) :=
  inferInstanceAs (Decidable (∀ sc ∈ g._screensWithWidgets, sc.associatedData ≠ none))

/-- A vendor whose calls all succeed, except that the grabs answer as given. -/
def vendorWithGrabs (grabFrame : Nat → NVFBCRESULT) : Vendor :=
  { direct3DCreate9 := fun _ => some [7],
    getStatus := fun _ => (NVFBCRESULT.NVFBC_SUCCESS, true),
    enable := fun _ => NVFBCRESULT.NVFBC_SUCCESS,
    create := fun _ => NVFBCRESULT.NVFBC_SUCCESS,
    setUp := fun _ => NVFBCRESULT.NVFBC_SUCCESS,
    grabFrame := grabFrame }

/-- A grabber tracking three screens with sessions 1, 2, 3 and a cleared flag. -/
def threeScreens : Grabber :=
  { construct with
    m_reallocation_needed := false,
    _screensWithWidgets :=
      [{ screenInfo := { rect := { x := 0, y := 0, width := 8, height := 8 }, handle := 7 },
         associatedData := some 1 },
       { screenInfo := { rect := { x := 8, y := 0, width := 8, height := 8 }, handle := 8 },
         associatedData := some 2 },
       { screenInfo := { rect := { x := 16, y := 0, width := 8, height := 8 }, handle := 9 },
         associatedData := some 3 }],
    live := [1, 2, 3] }

/-- A vendor whose calls all succeed, except that every `NvFBCToSysSetUp` fails. -/
def vendorSetUpFails : Vendor :=
  { direct3DCreate9 := fun _ => some [7],
    getStatus := fun _ => (NVFBCRESULT.NVFBC_SUCCESS, true),
    enable := fun _ => NVFBCRESULT.NVFBC_SUCCESS,
    create := fun _ => NVFBCRESULT.NVFBC_SUCCESS,
    setUp := fun _ => NVFBCRESULT.NVFBC_ERROR_OTHER 1,
    grabFrame := fun _ => NVFBCRESULT.NVFBC_SUCCESS }

/-- One screen on the monitor with handle 7. -/
def screenSeven : ScreenInfo :=
  { rect := { x := 0, y := 0, width := 1920, height := 1080 }, handle := 7 }

/-- The sessions released in a log, oldest first. -/
def releasedIn : List VendorCall → List Nat
  | [] => []
  | VendorCall.release session :: rest => session :: releasedIn rest
  | _ :: rest => releasedIn rest

/-- `NvFBCGrabber::~NvFBCGrabber`, its call of `freeScreens`. -/
def destruct (g : Grabber) : Grabber :=
  freeScreens g

/-- The number of times the administrator-rights message box was scheduled. -/
def adminCount : List VendorCall → Nat
  | [] => 0
  | VendorCall.adminMessage :: rest => adminCount rest + 1
  | _ :: rest => adminCount rest

/-- The number of `pfn_enable` calls answered with
`NVFBC_ERROR_INSUFFICIENT_PRIVILEGES`. -/
def privilegeFailures : List VendorCall → Nat
  | [] => 0
  | VendorCall.enable res :: rest =>
    (if res = NVFBCRESULT.NVFBC_ERROR_INSUFFICIENT_PRIVILEGES then 1 else 0)
      + privilegeFailures rest
  | _ :: rest => privilegeFailures rest

/-- A vendor that reports NvFBC as disabled and refuses to enable it for lack of
privileges. -/
def vendorNeedsAdmin : Vendor :=
  { direct3DCreate9 := fun _ => some [7],
    getStatus := fun _ => (NVFBCRESULT.NVFBC_SUCCESS, false),
    enable := fun _ => NVFBCRESULT.NVFBC_ERROR_INSUFFICIENT_PRIVILEGES,
    create := fun _ => NVFBCRESULT.NVFBC_SUCCESS,
    setUp := fun _ => NVFBCRESULT.NVFBC_SUCCESS,
    grabFrame := fun _ => NVFBCRESULT.NVFBC_SUCCESS }

/-- How a stretch of a run from the state `g` to the state `r`, ending with the error
flag `err`, treats the advisory: the privilege failures only grow, the latch is set
exactly when it was set or a privilege failure was met, the message box is scheduled
once exactly when the latch was clear and a privilege failure was met, and a privilege
failure raises the error flag. -/
def AdvisoryStep (g r : Grabber) (err : Bool) : Prop :=
  privilegeFailures g.log ≤ privilegeFailures r.log
    ∧ r.m_admin_message_shown
        = (g.m_admin_message_shown
            || decide (privilegeFailures g.log < privilegeFailures r.log))
    ∧ adminCount r.log
        = adminCount g.log
          + (if g.m_admin_message_shown = false
                ∧ privilegeFailures g.log < privilegeFailures r.log then 1 else 0)
    ∧ (privilegeFailures g.log < privilegeFailures r.log → err = true)

end NvFBCGrabber

/-! # Theorems -/

namespace ambilightUsb

/-- For a positive divisor, the quotient bumped by one when the remainder is not zero
is the ceiling of the rational quotient. -/
theorem bumped_quotient_eq_ceil (a b : Int) (ha : 0 < a) (hb : 0 < b) :
    (if Int.tmod a b ≠ 0 then Int.tdiv a b + 1 else Int.tdiv a b) = ⌈(a : ℚ) / (b : ℚ)⌉ := by
  rw [Int.tdiv_eq_ediv ha.le hb.le, Int.tmod_eq_emod ha.le hb.le]
  have hbq : (0 : ℚ) < (b : ℚ) := by exact_mod_cast hb
  have hdecomp : b * (a / b) + a % b = a := Int.ediv_add_emod a b
  have hr0 : 0 ≤ a % b := Int.emod_nonneg a hb.ne'
  have hrb : a % b < b := Int.emod_lt_of_pos a hb
  symm
  split
  · rename_i hne
    have hrpos : 0 < a % b := lt_of_le_of_ne hr0 (Ne.symm hne)
    rw [Int.ceil_eq_iff]
    constructor
    · rw [lt_div_iff₀ hbq]
      have : (a / b) * b < a := by nlinarith
      push_cast
      have h2 : (((a / b) * b : Int) : ℚ) < (a : ℚ) := by exact_mod_cast this
      push_cast at h2
      linarith
    · rw [div_le_iff₀ hbq]
      have : a ≤ (a / b + 1) * b := by nlinarith
      have h2 : (a : ℚ) ≤ (((a / b + 1) * b : Int) : ℚ) := by exact_mod_cast this
      push_cast at h2
      push_cast
      linarith
  · rename_i hne
    have hz : a % b = 0 := by
      by_contra h
      exact hne h
    rw [Int.ceil_eq_iff]
    have hab : (a / b) * b = a := by nlinarith
    have h2 : (((a / b) * b : Int) : ℚ) = (a : ℚ) := by exact_mod_cast hab
    push_cast at h2
    constructor
    · rw [lt_div_iff₀ hbq]
      nlinarith
    · rw [div_le_iff₀ hbq]
      linarith

/-- The ceiling of a quotient of positive integers is at least one. -/
theorem one_le_ceil_div (a b : Int) (ha : 0 < a) (hb : 0 < b) :
    1 ≤ ⌈(a : ℚ) / (b : ℚ)⌉ := by
  have hq : (0 : ℚ) < (a : ℚ) / (b : ℚ) := by
    apply div_pos
    · exact_mod_cast ha
    · exact_mod_cast hb
  have : 0 < ⌈(a : ℚ) / (b : ℚ)⌉ := Int.ceil_pos.mpr hq
  omega

/-- A value in the range of a 32-bit `int` is stored unchanged. -/
theorem wrapInt32_of_range (x : Int) (h0 : -2147483648 ≤ x) (h1 : x ≤ 2147483647) :
    wrapInt32 x = x := by
  unfold wrapInt32
  omega

/-- For positive settings whose sample count fits a 32-bit `int`, `readSettings` stores
the product of the two bumped quotients. -/
theorem readSettings_of_bound (s : Settings)
    (hw : 0 < s.ambilight_width) (hh : 0 < s.ambilight_height)
    (hx : 0 < s.step_x) (hy : 0 < s.step_y)
    (hfit : ⌈(s.ambilight_width : ℚ) / (s.step_x : ℚ)⌉
        * ⌈(s.ambilight_height : ℚ) / (s.step_y : ℚ)⌉ ≤ 2147483647) :
    readSettings s
      = some ((if Int.tmod s.ambilight_width s.step_x ≠ 0
                then Int.tdiv s.ambilight_width s.step_x + 1
                else Int.tdiv s.ambilight_width s.step_x)
              * (if Int.tmod s.ambilight_height s.step_y ≠ 0
                then Int.tdiv s.ambilight_height s.step_y + 1
                else Int.tdiv s.ambilight_height s.step_y)) := by
  have hcx := bumped_quotient_eq_ceil _ _ hw hx
  have hcy := bumped_quotient_eq_ceil _ _ hh hy
  have h1 := one_le_ceil_div _ _ hw hx
  have h2 := one_le_ceil_div _ _ hh hy
  rw [← hcx, ← hcy] at hfit
  rw [← hcx] at h1
  rw [← hcy] at h2
  have hbx : (if Int.tmod s.ambilight_width s.step_x ≠ 0
        then Int.tdiv s.ambilight_width s.step_x + 1
        else Int.tdiv s.ambilight_width s.step_x) ≤ 2147483647 := by nlinarith
  have hby : (if Int.tmod s.ambilight_height s.step_y ≠ 0
        then Int.tdiv s.ambilight_height s.step_y + 1
        else Int.tdiv s.ambilight_height s.step_y) ≤ 2147483647 := by nlinarith
  have hwx : (if Int.tmod s.ambilight_width s.step_x ≠ 0
        then wrapInt32 (Int.tdiv s.ambilight_width s.step_x + 1)
        else Int.tdiv s.ambilight_width s.step_x)
      = (if Int.tmod s.ambilight_width s.step_x ≠ 0
        then Int.tdiv s.ambilight_width s.step_x + 1
        else Int.tdiv s.ambilight_width s.step_x) := by
    by_cases hr : Int.tmod s.ambilight_width s.step_x ≠ 0
    · rw [if_pos hr, if_pos hr]
      rw [if_pos hr] at hbx h1
      exact wrapInt32_of_range _ (by omega) hbx
    · rw [if_neg hr, if_neg hr]
  have hwy : (if Int.tmod s.ambilight_height s.step_y ≠ 0
        then wrapInt32 (Int.tdiv s.ambilight_height s.step_y + 1)
        else Int.tdiv s.ambilight_height s.step_y)
      = (if Int.tmod s.ambilight_height s.step_y ≠ 0
        then Int.tdiv s.ambilight_height s.step_y + 1
        else Int.tdiv s.ambilight_height s.step_y) := by
    by_cases hr : Int.tmod s.ambilight_height s.step_y ≠ 0
    · rw [if_pos hr, if_pos hr]
      rw [if_pos hr] at hby h2
      exact wrapInt32_of_range _ (by omega) hby
    · rw [if_neg hr, if_neg hr]
  unfold readSettings
  rw [if_neg (by omega)]
  simp only []
  rw [hwx, hwy, wrapInt32_of_range _ (by nlinarith) hfit]

/-- C1, counterexample: a 65536 by 65536 zone with steps 1 and 1 has
65536 * 65536 = 4294967296 sample points, and the 32-bit product of `readSettings` stores
0 in `pixels_count_for_each_led`, which is neither that number nor at least 1. -/
theorem C1_pixels_count_overflow_counterexample :
    readSettings { step_x := 1, step_y := 1, ambilight_width := 65536,
                   ambilight_height := 65536, usb_send_data_timeout := 0 } = some 0
      ∧ ⌈((65536 : Int) : ℚ) / ((1 : Int) : ℚ)⌉ * ⌈((65536 : Int) : ℚ) / ((1 : Int) : ℚ)⌉
          = 4294967296
      ∧ ¬ ((1 : Int) ≤ 0) := by
  refine ⟨by decide, ?_, by decide⟩
  norm_num

/-- C1, within the range of a 32-bit `int`: for positive `ambilight_width`, `ambilight_height`, `step_x`, `step_y`
whose number of sample points `ceil(width/step_x) * ceil(height/step_y)` does not exceed
2147483647, the largest 32-bit `int`, `readSettings` stores that number in
`pixels_count_for_each_led`, the value is at least 1, and for width 5, height 5,
step_x 6, step_y 1 it is 5. -/
theorem C1_pixels_count_is_ceil_product (s : Settings)
    (hw : 0 < s.ambilight_width) (hh : 0 < s.ambilight_height)
    (hx : 0 < s.step_x) (hy : 0 < s.step_y)
    (hfit : ⌈(s.ambilight_width : ℚ) / (s.step_x : ℚ)⌉
        * ⌈(s.ambilight_height : ℚ) / (s.step_y : ℚ)⌉ ≤ 2147483647) :
    readSettings s
        = some (⌈(s.ambilight_width : ℚ) / (s.step_x : ℚ)⌉
                * ⌈(s.ambilight_height : ℚ) / (s.step_y : ℚ)⌉)
      ∧ (∀ n, readSettings s = some n → 1 ≤ n)
      ∧ (∀ t, readSettings
            { step_x := 6, step_y := 1, ambilight_width := 5, ambilight_height := 5,
              usb_send_data_timeout := t } = some 5) := by
  have hval : readSettings s
        = some (⌈(s.ambilight_width : ℚ) / (s.step_x : ℚ)⌉
                * ⌈(s.ambilight_height : ℚ) / (s.step_y : ℚ)⌉) := by
    rw [readSettings_of_bound s hw hh hx hy hfit,
      bumped_quotient_eq_ceil _ _ hw hx, bumped_quotient_eq_ceil _ _ hh hy]
  refine ⟨hval, ?_, ?_⟩
  · intro n hn
    rw [hval] at hn
    have h1 := one_le_ceil_div _ _ hw hx
    have h2 := one_le_ceil_div _ _ hh hy
    have hn2 := Option.some.inj hn
    rw [← hn2]
    nlinarith
  · intro t
    rfl

/-- Witness for C1 at the scenario of the specification: a 5 by 5 zone sampled with
steps 6 and 1. -/
theorem C1_pixels_count_witness :
    readSettings { step_x := 6, step_y := 1, ambilight_width := 5, ambilight_height := 5,
                   usb_send_data_timeout := 0 }
        = some (⌈((5 : Int) : ℚ) / ((6 : Int) : ℚ)⌉ * ⌈((5 : Int) : ℚ) / ((1 : Int) : ℚ)⌉) :=
  (C1_pixels_count_is_ceil_product
    { step_x := 6, step_y := 1, ambilight_width := 5, ambilight_height := 5,
      usb_send_data_timeout := 0 }
    (by decide) (by decide) (by decide) (by decide)
    (by
      have h56 : ⌈((5 : Int) : ℚ) / ((6 : Int) : ℚ)⌉ = 1 := by
        rw [← bumped_quotient_eq_ceil 5 6 (by decide) (by decide)]
        decide
      have h51 : ⌈((5 : Int) : ℚ) / ((1 : Int) : ℚ)⌉ = 5 := by
        rw [← bumped_quotient_eq_ceil 5 1 (by decide) (by decide)]
        decide
      show ⌈((5 : Int) : ℚ) / ((6 : Int) : ℚ)⌉ * ⌈((5 : Int) : ℚ) / ((1 : Int) : ℚ)⌉
        ≤ 2147483647
      rw [h56, h51]
      decide)).1

/-- C2 (the code leaves the device range): with one white sample per LED
(`pixels_count_for_each_led = 1`, as `readSettings` gives for a one-by-one zone with
steps 2) the blue channel is 255 / 1 / 8 = 31 and then 31 * 1.2 = 37 after truncation,
however the header numbers the channels; the tick writes 37 into bytes 4 and 7 of both
reports, which is above 31. -/
theorem C2_blue_channel_exceeds_31 :
    readSettings onePixelSettings = some 1
      ∧ (∀ k ∈ channelOrders, ∀ led ∈ ledIndices,
          (reduceColors k 1 (fun _ => [whitePixel])).map
            (fun c => (c led k.R, c led k.G, c led k.B)) = some (21, 31, 37))
      ∧ (updateColorsIfChanges stdConsts BuildVariant.WIN32 (fun _ => true) 0
            (fun _ => [whitePixel]) (initial 1 openedUsb)).map
          (fun r => (r.1, writesOf r.2.usb.trace))
        = some (0, [[0, 1, 21, 31, 37, 21, 31, 37], [0, 2, 21, 31, 37, 21, 31, 37]])
      ∧ ¬ ((37 : Int) ≤ 31) := by
  decide

/-- C3 (the second run still reports a change): from the cleared snapshot, two runs in
a row on the same all-white samples compute the same colours, but the first run saves
only channel 0 of each LED (the `break`), so the second run finds channel 1 different
and sets `write_colors` again, however the header numbers the channels; as ticks, both
write the two reports. -/
theorem C3_second_run_on_same_samples_reports_change :
    (reduceAndCompare stdConsts 1 (fun _ => [whitePixel]) (clearColorSave (fun _ _ => 0))).map
        (fun r => (tableOf r.1, r.2.1, tableOf r.2.2))
        = some ([[21, 31, 37], [21, 31, 37], [21, 31, 37], [21, 31, 37]], true,
                [[21, 0, 0], [21, 0, 0], [21, 0, 0], [21, 0, 0]])
      ∧ ((reduceAndCompare stdConsts 1 (fun _ => [whitePixel])
            (clearColorSave (fun _ _ => 0))).bind
          (fun r => reduceAndCompare stdConsts 1 (fun _ => [whitePixel]) r.2.2)).map
        (fun r => (tableOf r.1, r.2.1, tableOf r.2.2))
        = some ([[21, 31, 37], [21, 31, 37], [21, 31, 37], [21, 31, 37]], true,
                [[21, 31, 0], [21, 31, 0], [21, 31, 0], [21, 31, 0]])
      ∧ (∀ k ∈ channelOrders,
          (reduceAndCompare k 1 (fun _ => [whitePixel]) (clearColorSave (fun _ _ => 0))).bind
            (fun r1 => (reduceAndCompare k 1 (fun _ => [whitePixel]) r1.2.2).map
              (fun r2 => (differingEntries r1.1 r2.1, r1.2.1, r2.2.1)))
          = some (0, true, true))
      ∧ (runTicks stdConsts BuildVariant.WIN32 (fun _ => true) 0
            [fun _ => [whitePixel], fun _ => [whitePixel]] (initial 1 openedUsb)).map
          (fun r => (r.1, (writesOf r.2.usb.trace).length, readsOf r.2.usb.trace))
        = some ([0, 0], 4, 0) := by
  decide

/-- C4 (a change in exactly one channel goes undetected): starting from the cleared
snapshot, a first tick sees LED 0 as (255,255,0), reduced to (21,31,0), and saves only
channel 0, leaving the snapshot of LED 0 at (21,0,0).  The next tick sees LED 0 as
(255,0,0), reduced to (21,0,0): the colours differ from those of the previous tick in
exactly one entry, yet `write_colors` stays false and the tick only reads.  The same
happens however the header numbers the channels, with a first pixel lit in the channels
at indices 0 and 1 and a second pixel lit in the channel at index 0. -/
theorem C4_single_channel_change_not_detected :
    (reduceAndCompare stdConsts 1 (onlyLedZero { red := 255, green := 255, blue := 0 })
          (clearColorSave (fun _ _ => 0))).map
        (fun r => (tableOf r.1, r.2.1, tableOf r.2.2))
        = some ([[21, 31, 0], [0, 0, 0], [0, 0, 0], [0, 0, 0]], true,
                [[21, 0, 0], [0, 0, 0], [0, 0, 0], [0, 0, 0]])
      ∧ ((reduceAndCompare stdConsts 1 (onlyLedZero { red := 255, green := 255, blue := 0 })
            (clearColorSave (fun _ _ => 0))).bind
          (fun r1 => (reduceAndCompare stdConsts 1
              (onlyLedZero { red := 255, green := 0, blue := 0 }) r1.2.2).map
            (fun r2 => (tableOf r2.1, differingEntries r1.1 r2.1, r2.2.1))))
        = some ([[21, 0, 0], [0, 0, 0], [0, 0, 0], [0, 0, 0]], 1, false)
      ∧ (∀ k ∈ channelOrders,
          (reduceAndCompare k 1 (onlyLedZero (litChannels k 2))
              (clearColorSave (fun _ _ => 0))).bind
            (fun r1 => (reduceAndCompare k 1 (onlyLedZero (litChannels k 1)) r1.2.2).map
              (fun r2 => (differingEntries r1.1 r2.1, r1.2.1, r2.2.1)))
          = some (1, true, false))
      ∧ (runTicks stdConsts BuildVariant.WIN32 (fun _ => true) 0
            [onlyLedZero { red := 255, green := 255, blue := 0 },
             onlyLedZero { red := 255, green := 0, blue := 0 }] (initial 1 openedUsb)).map
          (fun r => (r.1, writesOf r.2.usb.trace, readsOf r.2.usb.trace))
        = some ([0, 0], [[0, 1, 0, 0, 0, 0, 0, 0], [0, 2, 21, 31, 0, 0, 0, 0]], 1) := by
  decide

/-- What `writeBufferToDeviceWithCheck` does, in terms of the device responses from the
call number `u.calls` on. -/
theorem writeBufferToDeviceWithCheck_eq (d : Device) (buf : List Nat) (u : Usb) :
    writeBufferToDeviceWithCheck d buf u
      = (!reportFails d u.calls,
         { dev := if d u.calls then u.dev else d (u.calls + 1),
           calls := u.calls + reportCalls d u.calls,
           trace := u.trace ++ reportTrace d buf u.calls }) := by
  cases h0 : d u.calls <;> cases h1 : d (u.calls + 1) <;> cases h2 : d (u.calls + 2) <;>
    simp [writeBufferToDeviceWithCheck, writeBufferToDevice, tryToReopenDevice, openDevice,
      reportFails, reportCalls, reportTrace, h0, h1, h2]

/-- C5: `writeBufferToDeviceWithCheck`, for every device behaviour `d`, report
`write_buffer` and link state `u` (its next call has number `u.calls`): if the first
write succeeds it returns true after exactly one write; if the first write fails and
the reopen (close, then open) succeeds, exactly one further write is attempted and its
result is returned; if the first write fails and the reopen fails, it returns false
with no second write.  It never makes more than two writes or more than one open. -/
theorem C5_write_with_check_retries_once (d : Device) (write_buffer : List Nat) (u : Usb) :
    (d u.calls = true →
        (writeBufferToDeviceWithCheck d write_buffer u).1 = true
        ∧ (writeBufferToDeviceWithCheck d write_buffer u).2.trace
            = u.trace ++ [UsbCall.setReport write_buffer true])
      ∧ (d u.calls = false → d (u.calls + 1) = true →
        (writeBufferToDeviceWithCheck d write_buffer u).1 = d (u.calls + 2)
        ∧ (writeBufferToDeviceWithCheck d write_buffer u).2.trace
            = u.trace ++ [UsbCall.setReport write_buffer false, UsbCall.closeDevice,
                UsbCall.openDevice true, UsbCall.setReport write_buffer (d (u.calls + 2))])
      ∧ (d u.calls = false → d (u.calls + 1) = false →
        (writeBufferToDeviceWithCheck d write_buffer u).1 = false
        ∧ (writeBufferToDeviceWithCheck d write_buffer u).2.trace
            = u.trace ++ [UsbCall.setReport write_buffer false, UsbCall.closeDevice,
                UsbCall.openDevice false])
      ∧ (∃ calls, (writeBufferToDeviceWithCheck d write_buffer u).2.trace = u.trace ++ calls
          ∧ (writesOf calls).length ≤ 2 ∧ opensOf calls ≤ 1) := by
  rw [writeBufferToDeviceWithCheck_eq]
  refine ⟨?_, ?_, ?_, ?_⟩
  · intro h0
    simp [reportFails, reportTrace, h0]
  · intro h0 h1
    simp [reportFails, reportTrace, h0, h1]
  · intro h0 h1
    simp [reportFails, reportTrace, h0, h1]
  · refine ⟨reportTrace d write_buffer u.calls, rfl, ?_⟩
    cases h0 : d u.calls <;> cases h1 : d (u.calls + 1) <;>
      simp [reportTrace, writesOf, opensOf, h0, h1]

/-- With a non-zero sample count the reduce-and-compare step has a result. -/
theorem reduceAndCompare_some (k : Consts) (n : Int) (samples : Samples) (save : Colors)
    (hn : n ≠ 0) :
    ∃ colors changed save1,
      reduceAndCompare k n samples save = some (colors, changed, save1) := by
  refine ⟨whiteBalance k (averageAndReduceDepth n (accumulate k samples)),
    (compareAndSave save
      (whiteBalance k (averageAndReduceDepth n (accumulate k samples)))).1,
    (compareAndSave save
      (whiteBalance k (averageAndReduceDepth n (accumulate k samples)))).2, ?_⟩
  simp [reduceAndCompare, reduceColors, hn]

/-- C6: with the display open, a non-negative elapsed time and a non-zero
`pixels_count_for_each_led`, `updateColorsIfChanges` returns a number, which is -2
exactly when the handle is closed at entry and the reopen fails; -3 exactly when the
device check passed, a change was detected and the right-side report or, after it
succeeded, the left-side report fails after its reopen-and-retry; -4 exactly when the
device check passed, no change was detected and the read fails; and the elapsed time in
every other case, in particular when the first write fails, the reopen and the retried
write succeed and the second report goes through.  The codes -2, -3, -4 are negative
and pairwise distinct. -/
theorem C6_return_codes (k : Consts) (platform : BuildVariant) (d : Device) (elapsed : Int)
    (samples : Samples) (s : Ambilight)
    (hdisplay : platform ≠ BuildVariant.X11 false) (helapsed : 0 ≤ elapsed)
    (hcount : s.pixels_count_for_each_led ≠ 0) :
    ∃ ret colors changed save,
      (updateColorsIfChanges k platform d elapsed samples s).map Prod.fst = some ret
      ∧ reduceAndCompare k s.pixels_count_for_each_led samples s.colors_save
          = some (colors, changed, save)
      ∧ (ret = -2 ↔ deviceUnavailable d s.usb = true)
      ∧ (ret = -3 ↔ deviceUnavailable d s.usb = false ∧ changed = true
            ∧ (reportFails d (ioStart s.usb) = true
               ∨ (reportFails d (ioStart s.usb) = false
                  ∧ reportFails d (ioStart s.usb + reportCalls d (ioStart s.usb)) = true)))
      ∧ (ret = -4 ↔ deviceUnavailable d s.usb = false ∧ changed = false
            ∧ d (ioStart s.usb) = false)
      ∧ (ret ≠ -2 → ret ≠ -3 → ret ≠ -4 → ret = elapsed ∧ 0 ≤ ret)
      ∧ (s.usb.dev = true → changed = true → d s.usb.calls = false
            → d (s.usb.calls + 1) = true → d (s.usb.calls + 2) = true
            → d (s.usb.calls + 3) = true → ret = elapsed ∧ 0 ≤ ret)
      ∧ ((-2 : Int) < 0 ∧ (-3 : Int) < 0 ∧ (-4 : Int) < 0
          ∧ (-2 : Int) ≠ -3 ∧ (-2 : Int) ≠ -4 ∧ (-3 : Int) ≠ -4) := by
  obtain ⟨colors, changed, save, hrc⟩ :=
    reduceAndCompare_some k s.pixels_count_for_each_led samples s.colors_save hcount
  have hdisp : (platform = BuildVariant.X11 false) = False := by simpa using hdisplay
  have e2 : elapsed ≠ -2 := by omega
  have e3 : elapsed ≠ -3 := by omega
  have e4 : elapsed ≠ -4 := by omega
  cases hdev : s.usb.dev
  · cases h0 : d s.usb.calls
    · refine ⟨-2, colors, changed, save, ?_, hrc, ?_⟩
      · simp [updateColorsIfChanges, tryToReopenDevice, openDevice, hdev, h0]
      · simp [deviceUnavailable, hdev, h0]
    · cases changed
      · cases hr : d (s.usb.calls + 1)
        · refine ⟨-4, colors, false, save, ?_, hrc, ?_⟩
          · simp [updateColorsIfChanges, tryToReopenDevice, openDevice, hdev, h0, hdisp, hrc,
              readDataFromDevice, hr]
          · simp [deviceUnavailable, ioStart, hdev, h0, hr]
        · refine ⟨elapsed, colors, false, save, ?_, hrc, ?_⟩
          · simp [updateColorsIfChanges, tryToReopenDevice, openDevice, hdev, h0, hdisp, hrc,
              readDataFromDevice, hr]
          · simp [deviceUnavailable, ioStart, hdev, h0, hr, e2, e3, e4, helapsed]
      · cases hR : reportFails d (s.usb.calls + 1)
        · cases hL : reportFails d (s.usb.calls + 1 + reportCalls d (s.usb.calls + 1))
          · refine ⟨elapsed, colors, true, save, ?_, hrc, ?_⟩
            · simp [updateColorsIfChanges, tryToReopenDevice, openDevice, hdev, h0, hdisp, hrc,
                writeBufferToDeviceWithCheck_eq, hR, hL]
            · simp [deviceUnavailable, ioStart, hdev, h0, hR, hL, e2, e3, e4, helapsed]
          · refine ⟨-3, colors, true, save, ?_, hrc, ?_⟩
            · simp [updateColorsIfChanges, tryToReopenDevice, openDevice, hdev, h0, hdisp, hrc,
                writeBufferToDeviceWithCheck_eq, hR, hL]
            · simp [deviceUnavailable, ioStart, hdev, h0, hR, hL]
        · refine ⟨-3, colors, true, save, ?_, hrc, ?_⟩
          · simp [updateColorsIfChanges, tryToReopenDevice, openDevice, hdev, h0, hdisp, hrc,
              writeBufferToDeviceWithCheck_eq, hR]
          · simp [deviceUnavailable, ioStart, hdev, h0, hR]
  · cases changed
    · cases hr : d s.usb.calls
      · refine ⟨-4, colors, false, save, ?_, hrc, ?_⟩
        · simp [updateColorsIfChanges, hdev, hdisp, hrc, readDataFromDevice, hr]
        · simp [deviceUnavailable, ioStart, hdev, hr]
      · refine ⟨elapsed, colors, false, save, ?_, hrc, ?_⟩
        · simp [updateColorsIfChanges, hdev, hdisp, hrc, readDataFromDevice, hr]
        · simp [deviceUnavailable, ioStart, hdev, hr, e2, e3, e4, helapsed]
    · cases hR : reportFails d s.usb.calls
      · cases hL : reportFails d (s.usb.calls + reportCalls d s.usb.calls)
        · refine ⟨elapsed, colors, true, save, ?_, hrc, ?_⟩
          · simp [updateColorsIfChanges, hdev, hdisp, hrc, writeBufferToDeviceWithCheck_eq,
              hR, hL]
          · simp [deviceUnavailable, ioStart, hdev, hR, hL, e2, e3, e4, helapsed]
        · refine ⟨-3, colors, true, save, ?_, hrc, ?_⟩
          · simp [updateColorsIfChanges, hdev, hdisp, hrc, writeBufferToDeviceWithCheck_eq,
              hR, hL]
          · simp [deviceUnavailable, ioStart, hdev, hR, hL]
            intro h0 h1 h2
            cases h3 : d (s.usb.calls + 3)
            · rfl
            · simp [reportFails, reportCalls, h0, h1, h2, h3, Nat.add_assoc] at hL
      · refine ⟨-3, colors, true, save, ?_, hrc, ?_⟩
        · simp [updateColorsIfChanges, hdev, hdisp, hrc, writeBufferToDeviceWithCheck_eq, hR]
        · simp [deviceUnavailable, ioStart, hdev, hR]
          intro h0 h1 h2
          simp [reportFails, h0, h1, h2] at hR

/-- Witness for C6: an open device whose first write fails and whose later calls all
succeed, one white sample per LED, elapsed time 7. -/
theorem C6_return_codes_witness :
    BuildVariant.WIN32 ≠ BuildVariant.X11 false ∧ (0 : Int) ≤ 7
      ∧ (initial 1 openedUsb).pixels_count_for_each_led ≠ 0
      ∧ ∃ ret, (updateColorsIfChanges stdConsts BuildVariant.WIN32 (fun n => n != 0) 7
            (fun _ => [whitePixel]) (initial 1 openedUsb)).map Prod.fst = some ret
          ∧ (ret = -2 ↔ deviceUnavailable (fun n => n != 0) (initial 1 openedUsb).usb = true) :=
  ⟨by decide, by decide, by decide,
    match C6_return_codes stdConsts BuildVariant.WIN32 (fun n => n != 0) 7
        (fun _ => [whitePixel]) (initial 1 openedUsb) (by decide) (by decide) (by decide) with
    | ⟨ret, _, _, _, h1, _, h2, _⟩ => ⟨ret, h1, h2⟩⟩

/-- Every entry of the table after lines 333-345 is the entry before, divided by
`pixels_count_for_each_led` and then by 8. -/
theorem averageAndReduceDepth_apply (n : Int) (c : Colors) (led : Fin 4) (color : Fin 3) :
    averageAndReduceDepth n c led color = Int.tdiv (Int.tdiv (c led color) n) 8 := by
  fin_cases led <;> fin_cases color <;>
    simp [averageAndReduceDepth, ledIndices, colorIndices, setColor, Function.update]

/-- Division by 8 of a mean in `0..255` lands in `0..31` and is monotonic. -/
theorem tdiv_eight_bounds (m : Int) (h0 : 0 ≤ m) (h1 : m ≤ 255) :
    0 ≤ Int.tdiv m 8 ∧ Int.tdiv m 8 ≤ 31 := by
  rw [Int.tdiv_eq_ediv h0 (by decide)]
  omega

theorem tdiv_eight_mono (m1 m2 : Int) (h0 : 0 ≤ m1) (h : m1 ≤ m2) :
    Int.tdiv m1 8 ≤ Int.tdiv m2 8 := by
  rw [Int.tdiv_eq_ediv h0 (by decide), Int.tdiv_eq_ediv (le_trans h0 h) (by decide)]
  omega

/-- C12: in `updateColorsIfChanges` the value of a channel after the averaging and depth
reduction (lines 333-345, before white balance) is the raw mean `m`, the channel sum
integer-divided by `pixels_count_for_each_led`, divided by 8; for every mean in 0..255
it lies in 0..31, it is monotonic non-decreasing in the mean, and for the means 100,
150 and 200 (sums 500, 750, 1000 over 5 samples) it is 12, 18 and 25. -/
theorem C12_quantization_range_and_monotone (n : Int) (c1 c2 : Colors) (led : Fin 4)
    (color : Fin 3) :
    averageAndReduceDepth n c1 led color = Int.tdiv (Int.tdiv (c1 led color) n) 8
      ∧ (0 ≤ Int.tdiv (c1 led color) n → Int.tdiv (c1 led color) n ≤ 255 →
          0 ≤ averageAndReduceDepth n c1 led color
          ∧ averageAndReduceDepth n c1 led color ≤ 31)
      ∧ (0 ≤ Int.tdiv (c1 led color) n →
          Int.tdiv (c1 led color) n ≤ Int.tdiv (c2 led color) n →
          Int.tdiv (c2 led color) n ≤ 255 →
          averageAndReduceDepth n c1 led color ≤ averageAndReduceDepth n c2 led color)
      ∧ averageAndReduceDepth 5 (fun _ _ => 500) led color = 12
      ∧ averageAndReduceDepth 5 (fun _ _ => 750) led color = 18
      ∧ averageAndReduceDepth 5 (fun _ _ => 1000) led color = 25 := by
  refine ⟨averageAndReduceDepth_apply n c1 led color, ?_, ?_, ?_, ?_, ?_⟩
  · intro h0 h1
    rw [averageAndReduceDepth_apply]
    exact tdiv_eight_bounds _ h0 h1
  · intro h0 h _
    rw [averageAndReduceDepth_apply, averageAndReduceDepth_apply]
    exact tdiv_eight_mono _ _ h0 h
  · rw [averageAndReduceDepth_apply]
    decide
  · rw [averageAndReduceDepth_apply]
    decide
  · rw [averageAndReduceDepth_apply]
    decide


/-! ### The number of samples -/

/-- With a positive step and enough fuel, the loop `x < limit` makes
`ceil((limit - x) / step)` rounds, and none when `x` is not below `limit`. -/
theorem loopValues_length (limit step : Int) (hstep : 0 < step) :
    ∀ (fuel : Nat) (x : Int), (limit - x).toNat ≤ fuel →
      ((loopValues false limit step fuel x).length : Int)
        = max 0 ((limit - x + step - 1) / step) := by
  intro fuel
  induction fuel with
  | zero =>
    intro x hx
    have hle : limit - x ≤ 0 := by omega
    have hq : (limit - x + step - 1) / step < 1 :=
      Int.ediv_lt_of_lt_mul hstep (by omega)
    simp only [loopValues, List.length_nil]
    omega
  | succ fuel ih =>
    intro x hx
    by_cases hlt : x < limit
    · have hfuel : (limit - (x + step)).toNat ≤ fuel := by omega
      have hrec := ih (x + step) hfuel
      have hsplit : (limit - x + step - 1) / step = (limit - x - 1) / step + 1 := by
        have : limit - x + step - 1 = (limit - x - 1) + 1 * step := by ring
        rw [this, Int.add_mul_ediv_right _ _ hstep.ne']
      have hnn : 0 ≤ (limit - x - 1) / step := Int.ediv_nonneg (by omega) hstep.le
      have harg : limit - (x + step) + step - 1 = limit - x - 1 := by ring
      rw [harg] at hrec
      simp only [loopValues, if_pos hlt, Bool.false_eq_true, if_false, List.length_cons]
      push_cast
      rw [hrec, hsplit]
      omega
    · have hq : (limit - x + step - 1) / step < 1 :=
        Int.ediv_lt_of_lt_mul hstep (by omega)
      simp only [loopValues, if_neg hlt, Bool.false_eq_true, if_false, List.length_nil]
      omega

/-- For positive operands the bumped quotient of `readSettings` is
`(a + b - 1) / b`. -/
theorem bumped_quotient_eq_ediv (a b : Int) (ha : 0 < a) (hb : 0 < b) :
    (if Int.tmod a b ≠ 0 then Int.tdiv a b + 1 else Int.tdiv a b) = (a + b - 1) / b := by
  rw [Int.tdiv_eq_ediv ha.le hb.le, Int.tmod_eq_emod ha.le hb.le]
  have hdecomp : b * (a / b) + a % b = a := Int.ediv_add_emod a b
  have hr0 : 0 ≤ a % b := Int.emod_nonneg a hb.ne'
  have hrb : a % b < b := Int.emod_lt_of_pos a hb
  have hform : a + b - 1 = (a % b + b - 1) + (a / b) * b := by linarith
  rw [hform, Int.add_mul_ediv_right _ _ hb.ne']
  split
  · rename_i hne
    have hpos : 0 < a % b := lt_of_le_of_ne hr0 (Ne.symm hne)
    have h1 : a % b + b - 1 = (a % b - 1) + 1 * b := by ring
    have h2 : (a % b - 1) / b = 0 := Int.ediv_eq_zero_of_lt (by omega) (by omega)
    rw [h1, Int.add_mul_ediv_right _ _ hb.ne', h2]
    ring
  · rename_i hne
    have hz : a % b = 0 := by
      by_contra h
      exact hne h
    have h2 : (0 + b - 1) / b = 0 := Int.ediv_eq_zero_of_lt (by omega) (by omega)
    rw [hz, h2]
    ring

/-- The number of rounds of the X11 loop over a positive dimension is the factor
`readSettings` computes for it. -/
theorem loopValues_count (limit step : Int) (hl : 0 < limit) (hstep : 0 < step) :
    ((loopValues false limit step (loopFuel limit) 0).length : Int)
      = (if Int.tmod limit step ≠ 0 then Int.tdiv limit step + 1 else Int.tdiv limit step) := by
  rw [loopValues_length limit step hstep (loopFuel limit) 0 (by simp [loopFuel]),
    bumped_quotient_eq_ediv limit step hl hstep]
  have hnn : 0 ≤ (limit + step - 1) / step := Int.ediv_nonneg (by omega) hstep.le
  simp only [sub_zero]
  omega

theorem flatMap_map_length {α β γ : Type} (ys : List β) (f : α → β → γ) :
    ∀ (xs : List α), (xs.flatMap (fun x => ys.map (f x))).length = xs.length * ys.length := by
  intro xs
  induction xs with
  | nil => simp
  | cons x rest ih =>
    simp only [List.flatMap_cons, List.length_append, List.length_map, ih, List.length_cons]
    ring

theorem ledPixels_length (inclusive : Bool) (k : Consts) (desk : Desktop) (s : Settings)
    (led : Fin 4) :
    (ledPixels inclusive k desk s led).length
      = (loopValues inclusive s.ambilight_width s.step_x (loopFuel s.ambilight_width) 0).length
        * (loopValues inclusive s.ambilight_height s.step_y
            (loopFuel s.ambilight_height) 0).length := by
  unfold ledPixels
  exact flatMap_map_length _ (fun x y => grabbedPixel k desk led x y) _

theorem filterMap_length_of_isSome {α β : Type} (f : α → Option β) :
    ∀ (l : List α), (∀ a ∈ l, (f a).isSome = true) → (l.filterMap f).length = l.length := by
  intro l
  induction l with
  | nil => intro _; rfl
  | cons a rest ih =>
    intro h
    have ha := h a (List.mem_cons_self _ _)
    have hrest := ih (fun x hx => h x (List.mem_cons_of_mem _ hx))
    cases hfa : f a with
    | none => simp [hfa] at ha
    | some b => simp [List.filterMap_cons, hfa, hrest]

/-- The X11 sampling loops fill exactly the `4 * pixels_count_for_each_led` entries of
`xcolors`, and each LED adds exactly `pixels_count_for_each_led` of them. -/
theorem samplesX11_count (k : Consts) (desk : Desktop) (s : Settings) (n : Int)
    (hw : 0 < s.ambilight_width) (hh : 0 < s.ambilight_height)
    (hx : 0 < s.step_x) (hy : 0 < s.step_y)
    (hfit : ⌈(s.ambilight_width : ℚ) / (s.step_x : ℚ)⌉
        * ⌈(s.ambilight_height : ℚ) / (s.step_y : ℚ)⌉ ≤ 2147483647)
    (hn : readSettings s = some n) :
    ((xcolorsX11 k desk s).length : Int) = 4 * n
      ∧ ∀ led, ((samplesX11 k desk s n led).length : Int) = n := by
  have hcx := loopValues_count s.ambilight_width s.step_x hw hx
  have hcy := loopValues_count s.ambilight_height s.step_y hh hy
  have hval : n = ((loopValues false s.ambilight_width s.step_x
        (loopFuel s.ambilight_width) 0).length : Int)
      * ((loopValues false s.ambilight_height s.step_y
        (loopFuel s.ambilight_height) 0).length : Int) := by
    rw [readSettings_of_bound s hw hh hx hy hfit] at hn
    rw [hcx, hcy]
    exact (Option.some.inj hn).symm
  have hflat : (xcolorsX11 k desk s).length
      = 4 * ((loopValues false s.ambilight_width s.step_x
          (loopFuel s.ambilight_width) 0).length
        * (loopValues false s.ambilight_height s.step_y
          (loopFuel s.ambilight_height) 0).length) := by
    simp only [xcolorsX11, ledIndices, List.flatMap_cons, List.flatMap_nil, List.length_append,
      List.length_nil, ledPixels_length]
    ring
  refine ⟨?_, ?_⟩
  · rw [hflat, hval]
    push_cast
    ring
  · intro led
    have hnat : n.toNat = (loopValues false s.ambilight_width s.step_x
          (loopFuel s.ambilight_width) 0).length
        * (loopValues false s.ambilight_height s.step_y
          (loopFuel s.ambilight_height) 0).length := by
      rw [hval]
      exact_mod_cast Int.toNat_natCast _
    have hlen : (samplesX11 k desk s n led).length = n.toNat := by
      unfold samplesX11
      rw [filterMap_length_of_isSome, List.length_range]
      intro i hi
      have hi2 : i < n.toNat := List.mem_range.mp hi
      have hled : led.val < 4 := led.isLt
      have hbound : i + n.toNat * led.val < (xcolorsX11 k desk s).length := by
        rw [hflat, ← hnat]
        have : n.toNat * led.val ≤ n.toNat * 3 := Nat.mul_le_mul_left _ (by omega)
        omega
      rw [List.getElem?_eq_getElem hbound]
      rfl
    rw [hlen, hnat, hval]
    push_cast
    ring

/-- The loop `x <= limit` is the loop `x < limit + 1`. -/
theorem loopValues_inclusive (limit step : Int) :
    ∀ (fuel : Nat) (x : Int),
      loopValues true limit step fuel x = loopValues false (limit + 1) step fuel x := by
  intro fuel
  induction fuel with
  | zero => intro x; rfl
  | succ fuel ih =>
    intro x
    simp only [loopValues, ih, if_true, Bool.false_eq_true, if_false, Int.lt_add_one_iff]

/-- The number of rounds of the WIN32 loop `x <= limit` over a positive dimension is
the truncated quotient plus one. -/
theorem loopValues_inclusive_count (limit step : Int) (hl : 0 < limit) (hstep : 0 < step) :
    ((loopValues true limit step (loopFuel limit) 0).length : Int)
      = Int.tdiv limit step + 1 := by
  rw [loopValues_inclusive,
    loopValues_length (limit + 1) step hstep (loopFuel limit) 0 (by simp [loopFuel]),
    Int.tdiv_eq_ediv hl.le hstep.le]
  have hform : limit + 1 - 0 + step - 1 = limit + 1 * step := by ring
  rw [hform, Int.add_mul_ediv_right _ _ hstep.ne']
  have hnn : 0 ≤ limit / step := Int.ediv_nonneg hl.le hstep.le
  omega

/-- The WIN32 sampling loops add `(width / step_x + 1) * (height / step_y + 1)` pixels
into `colors[led_index]`. -/
theorem samplesWIN32_count (k : Consts) (desk : Desktop) (s : Settings) (led : Fin 4)
    (hw : 0 < s.ambilight_width) (hh : 0 < s.ambilight_height)
    (hx : 0 < s.step_x) (hy : 0 < s.step_y) :
    ((samplesWIN32 k desk s led).length : Int)
      = (Int.tdiv s.ambilight_width s.step_x + 1)
        * (Int.tdiv s.ambilight_height s.step_y + 1) := by
  unfold samplesWIN32
  rw [ledPixels_length]
  push_cast
  rw [loopValues_inclusive_count _ _ hw hx, loopValues_inclusive_count _ _ hh hy]

set_option maxRecDepth 8000 in
/-- On a white desktop with the 5 by 5 zone and steps 6 and 1, the colours the two
build variants reduce to. -/
theorem scenario_colours :
    (reduceColors stdConsts 5
          (sampleDesktop BuildVariant.WIN32 stdConsts whiteDesktop scenarioSettings 5)).map
        tableOf
        = some [[26, 38, 45], [26, 38, 45], [26, 38, 45], [26, 38, 45]]
      ∧ (reduceColors stdConsts 5
            (sampleDesktop (BuildVariant.X11 true) stdConsts whiteDesktop
              scenarioSettings 5)).map tableOf
        = some [[21, 31, 37], [21, 31, 37], [21, 31, 37], [21, 31, 37]] := by
  decide

/-- C13 (the WIN32 loops sample more points than the divisor counts): in the X11 variant
the loops `x < ambilight_width`, `y < ambilight_height` fill exactly
`4 * pixels_count_for_each_led` entries and each LED adds exactly
`pixels_count_for_each_led` samples, for all positive settings whose number of sample
points fits a 32-bit `int`.  In the WIN32 variant
the loops `x <= ambilight_width`, `y <= ambilight_height` add
`(width / step_x + 1) * (height / step_y + 1)` samples per LED: for the 5 by 5 zone with
steps 6 and 1 that is 6 samples against the divisor 5, so a white desktop gives the mean
1530 / 5 = 306 and the colours (26, 38, 45) where the X11 variant gives (21, 31, 37). -/
theorem C13_win32_samples_exceed_divisor :
    readSettings scenarioSettings = some 5
      ∧ (∀ (k : Consts) (desk : Desktop) (s : Settings) (n : Int),
          0 < s.ambilight_width → 0 < s.ambilight_height → 0 < s.step_x → 0 < s.step_y →
          ⌈(s.ambilight_width : ℚ) / (s.step_x : ℚ)⌉
            * ⌈(s.ambilight_height : ℚ) / (s.step_y : ℚ)⌉ ≤ 2147483647 →
          readSettings s = some n →
          ((xcolorsX11 k desk s).length : Int) = 4 * n
          ∧ ∀ led, ((samplesX11 k desk s n led).length : Int) = n)
      ∧ (∀ (k : Consts) (desk : Desktop) (s : Settings) (led : Fin 4),
          0 < s.ambilight_width → 0 < s.ambilight_height → 0 < s.step_x → 0 < s.step_y →
          ((samplesWIN32 k desk s led).length : Int)
            = (Int.tdiv s.ambilight_width s.step_x + 1)
              * (Int.tdiv s.ambilight_height s.step_y + 1))
      ∧ (∀ (k : Consts) (desk : Desktop) (led : Fin 4),
          (samplesWIN32 k desk scenarioSettings led).length = 6
          ∧ (samplesX11 k desk scenarioSettings 5 led).length = 5)
      ∧ (reduceColors stdConsts 5
            (sampleDesktop BuildVariant.WIN32 stdConsts whiteDesktop scenarioSettings 5)).map
          tableOf
        = some [[26, 38, 45], [26, 38, 45], [26, 38, 45], [26, 38, 45]]
      ∧ (reduceColors stdConsts 5
            (sampleDesktop (BuildVariant.X11 true) stdConsts whiteDesktop
              scenarioSettings 5)).map tableOf
        = some [[21, 31, 37], [21, 31, 37], [21, 31, 37], [21, 31, 37]] := by
  refine ⟨by decide, ?_, ?_, ?_, scenario_colours.1, scenario_colours.2⟩
  · intro k desk s n hw hh hx hy hfit hn
    exact samplesX11_count k desk s n hw hh hx hy hfit hn
  · intro k desk s led hw hh hx hy
    exact samplesWIN32_count k desk s led hw hh hx hy
  · intro k desk led
    fin_cases led <;> exact ⟨rfl, rfl⟩

/-! ### The snapshot update -/

end ambilightUsb

namespace NvFBCGrabber

open NVFBCRESULT GrabResult in
/-- The grab loop over screens that all carry a session: it returns, `GrabResultOk`
exactly when every grab succeeds, and otherwise stops at the first grab that does not. -/
theorem grabScreensLoop_spec (v : Vendor) :
    ∀ (screens : List GrabbedScreen) (g : Grabber),
      (∀ sc ∈ screens, sc.associatedData ≠ none) →
      ∃ res g1, grabScreensLoop v screens g = some (res, g1)
        ∧ (res = GrabResultOk ↔ ∀ i, i < screens.length → v.grabFrame (g.calls + i) = NVFBC_SUCCESS)
        ∧ (res = GrabResultOk →
            g1.calls = g.calls + screens.length
            ∧ g1.m_reallocation_needed = g.m_reallocation_needed)
        ∧ (∀ j, j < screens.length →
            (∀ i, i < j → v.grabFrame (g.calls + i) = NVFBC_SUCCESS) →
            v.grabFrame (g.calls + j) ≠ NVFBC_SUCCESS →
            res = GrabResultError ∧ g1.calls = g.calls + j + 1
            ∧ g1.m_reallocation_needed
                = (if v.grabFrame (g.calls + j) = NVFBC_ERROR_INVALIDATED_SESSION then true
                   else g.m_reallocation_needed))
        ∧ g1._screensWithWidgets = g._screensWithWidgets
        ∧ g1.m_downscale_factor = g.m_downscale_factor
        ∧ g1.m_admin_message_shown = g.m_admin_message_shown
        ∧ g1.live = g.live := by
  intro screens
  induction screens with
  | nil =>
    intro g _
    refine ⟨GrabResultOk, g, rfl, ?_, ?_, ?_, rfl, rfl, rfl, rfl⟩
    · simp
    · simp
    · intro j hj
      simp at hj
  | cons sc rest ih =>
    intro g hs
    have hsc : sc.associatedData ≠ none := hs sc (List.mem_cons_self _ _)
    obtain ⟨sess, hsess⟩ := Option.ne_none_iff_exists'.mp hsc
    have hrest : ∀ x ∈ rest, x.associatedData ≠ none :=
      fun x hx => hs x (List.mem_cons_of_mem _ hx)
    by_cases h0 : v.grabFrame g.calls = NVFBC_SUCCESS
    · obtain ⟨res, g1, hrun, hiff, hok, hfail, h1, h2, h3, h4⟩ :=
        ih { g with calls := g.calls + 1,
                    log := g.log ++ [VendorCall.grabFrame sess (v.grabFrame g.calls)] } hrest
      refine ⟨res, g1, ?_, ?_, ?_, ?_, h1, h2, h3, h4⟩
      · simp only [grabScreensLoop, hsess, h0]
        simp only [h0] at hrun
        simpa using hrun
      · rw [hiff]
        constructor
        · intro h i hi
          cases i with
          | zero => simpa using h0
          | succ i =>
            have := h i (by simpa using hi)
            simpa [Nat.add_assoc, Nat.add_comm 1 i] using this
        · intro h i hi
          have := h (i + 1) (by simpa using hi)
          simpa [Nat.add_assoc, Nat.add_comm 1 i] using this
      · intro hres
        obtain ⟨hc, hf⟩ := hok hres
        refine ⟨?_, hf⟩
        simp only [List.length_cons]
        simp only at hc
        omega
      · intro j hj hpre hne
        cases j with
        | zero => exact absurd h0 (by simpa using hne)
        | succ j =>
          have hj2 : j < rest.length := by simpa using hj
          have hpre2 : ∀ i, i < j → v.grabFrame (g.calls + 1 + i) = NVFBC_SUCCESS := by
            intro i hi
            have := hpre (i + 1) (by omega)
            simpa [Nat.add_assoc, Nat.add_comm 1 i] using this
          have hne2 : v.grabFrame (g.calls + 1 + j) ≠ NVFBC_SUCCESS := by
            simpa [Nat.add_assoc, Nat.add_comm 1 j] using hne
          obtain ⟨hr, hc, hf⟩ := hfail j hj2 hpre2 hne2
          refine ⟨hr, ?_, ?_⟩
          · simp only at hc
            omega
          · simp only at hf
            simpa [Nat.add_assoc, Nat.add_comm 1 j] using hf
    · have hrun : ∃ g1, grabScreensLoop v (sc :: rest) g = some (GrabResultError, g1)
          ∧ g1.calls = g.calls + 1
          ∧ g1.m_reallocation_needed
              = (if v.grabFrame g.calls = NVFBC_ERROR_INVALIDATED_SESSION then true
                 else g.m_reallocation_needed)
          ∧ g1._screensWithWidgets = g._screensWithWidgets
          ∧ g1.m_downscale_factor = g.m_downscale_factor
          ∧ g1.m_admin_message_shown = g.m_admin_message_shown
          ∧ g1.live = g.live := by
        refine ⟨{ g with
            calls := g.calls + 1,
            log := g.log ++ [VendorCall.grabFrame sess (v.grabFrame g.calls)],
            m_reallocation_needed :=
              if v.grabFrame g.calls = NVFBC_ERROR_INVALIDATED_SESSION then true
              else g.m_reallocation_needed }, ?_, rfl, rfl, rfl, rfl, rfl, rfl⟩
        by_cases hp : v.grabFrame g.calls = NVFBC_ERROR_PROTECTED_CONTENT
        · simp [grabScreensLoop, hsess, hp]
        · by_cases hi : v.grabFrame g.calls = NVFBC_ERROR_INVALIDATED_SESSION
          · simp [grabScreensLoop, hsess, hi]
          · simp [grabScreensLoop, hsess, hp, hi, h0]
      obtain ⟨g1, hg1, hc, hf, h1, h2, h3, h4⟩ := hrun
      refine ⟨GrabResultError, g1, hg1, ?_, ?_, ?_, h1, h2, h3, h4⟩
      · constructor
        · intro h
          cases h
        · intro h
          exact absurd (by simpa using h 0 (by simp)) h0
      · intro h
        cases h
      · intro j hj hpre hne
        cases j with
        | zero => exact ⟨rfl, by simpa using hc, by simpa using hf⟩
        | succ j => exact absurd (by simpa using hpre 0 (by omega)) h0

/-- C8: `grabScreens`, for tracked screens that all carry a session and every vendor
behaviour (the grab of the i-th screen is the call number `g.calls + i`): it returns
`GrabResultOk` exactly when every grab returns `NVFBC_SUCCESS`, and then every screen
was grabbed and `m_reallocation_needed` is unchanged; otherwise it returns
`GrabResultError` right after the first grab `j` that does not succeed, having made
`j + 1` grabs, and `m_reallocation_needed` is TRUE if that result is
`NVFBC_ERROR_INVALIDATED_SESSION` and unchanged for every other result. -/
theorem C8_grabScreens_result (v : Vendor) (g : Grabber)
    (hsessions : ∀ sc ∈ g._screensWithWidgets, sc.associatedData ≠ none) :
    ∃ res g1, grabScreens v g = some (res, g1)
      ∧ (res = GrabResult.GrabResultOk ↔
          ∀ i, i < g._screensWithWidgets.length →
            v.grabFrame (g.calls + i) = NVFBCRESULT.NVFBC_SUCCESS)
      ∧ (res = GrabResult.GrabResultOk →
          g1.calls = g.calls + g._screensWithWidgets.length
          ∧ g1.m_reallocation_needed = g.m_reallocation_needed)
      ∧ (∀ j, j < g._screensWithWidgets.length →
          (∀ i, i < j → v.grabFrame (g.calls + i) = NVFBCRESULT.NVFBC_SUCCESS) →
          v.grabFrame (g.calls + j) ≠ NVFBCRESULT.NVFBC_SUCCESS →
          res = GrabResult.GrabResultError ∧ g1.calls = g.calls + j + 1
          ∧ g1.m_reallocation_needed
              = (if v.grabFrame (g.calls + j) = NVFBCRESULT.NVFBC_ERROR_INVALIDATED_SESSION
                 then true else g.m_reallocation_needed)) := by
  obtain ⟨res, g1, hrun, hiff, hok, hfail, _⟩ :=
    grabScreensLoop_spec v g._screensWithWidgets g hsessions
  exact ⟨res, g1, hrun, hiff, hok, hfail⟩

/-- Witness for C8: three tracked screens, the second grab answering
`NVFBC_ERROR_INVALIDATED_SESSION`. -/
theorem C8_grabScreens_result_witness :
    (∀ sc ∈ threeScreens._screensWithWidgets, sc.associatedData ≠ none)
      ∧ ∃ res g1,
        grabScreens (vendorWithGrabs (fun n => if n = 1
            then NVFBCRESULT.NVFBC_ERROR_INVALIDATED_SESSION
            else NVFBCRESULT.NVFBC_SUCCESS)) threeScreens = some (res, g1)
        ∧ (res = GrabResult.GrabResultOk →
            g1.calls = threeScreens.calls + threeScreens._screensWithWidgets.length
            ∧ g1.m_reallocation_needed = threeScreens.m_reallocation_needed) :=
  ⟨by decide,
    match C8_grabScreens_result (vendorWithGrabs (fun n => if n = 1
            then NVFBCRESULT.NVFBC_ERROR_INVALIDATED_SESSION
            else NVFBCRESULT.NVFBC_SUCCESS)) threeScreens (by decide) with
    | ⟨res, g1, h1, _, h3, _⟩ => ⟨res, g1, h1, h3⟩⟩

/-! ### The reallocation flag over sequences of operations -/

theorem freeScreensLoop_flag : ∀ (screens : List GrabbedScreen) (g : Grabber),
    (freeScreensLoop screens g).m_reallocation_needed = g.m_reallocation_needed
      ∧ (freeScreensLoop screens g).m_downscale_factor = g.m_downscale_factor := by
  intro screens
  induction screens with
  | nil => intro g; exact ⟨rfl, rfl⟩
  | cons sc rest ih =>
    intro g
    cases h : sc.associatedData with
    | none => simpa [freeScreensLoop, h] using ih g
    | some x =>
      simp only [freeScreensLoop, h]
      exact ih _

theorem afterEnable_fields (res : NVFBCRESULT) (g : Grabber) :
    (afterEnable res g).2.m_reallocation_needed = g.m_reallocation_needed
      ∧ (afterEnable res g).2._screensWithWidgets = g._screensWithWidgets
      ∧ (afterEnable res g).2.calls = g.calls
      ∧ (afterEnable res g).2.live = g.live := by
  unfold afterEnable
  split_ifs <;> simp

theorem reallocateLoop_flag (v : Vendor) (adapters : List Nat) :
    ∀ (screens : List ScreenInfo) (g : Grabber),
      (reallocateLoop v adapters screens g).2.m_reallocation_needed
        = g.m_reallocation_needed := by
  intro screens
  induction screens with
  | nil => intro g; rfl
  | cons sc rest ih =>
    intro g
    simp only [reallocateLoop]
    split
    · rfl
    · split_ifs <;> simp [ih, afterEnable_fields]

theorem reallocateLoop_tracked (v : Vendor) (adapters : List Nat) :
    ∀ (screens : List ScreenInfo) (g : Grabber),
      Tracked g → Tracked (reallocateLoop v adapters screens g).2 := by
  intro screens
  induction screens with
  | nil => intro g hg; exact hg
  | cons sc rest ih =>
    intro g hg
    simp only [reallocateLoop]
    split
    · exact hg
    · split_ifs
      all_goals first
        | exact hg
        | (apply ih
           intro x hx
           simp only [List.mem_append, List.mem_singleton] at hx
           rcases hx with hx | hx
           · first
              | exact hg x hx
              | exact hg x (by simpa [afterEnable_fields] using hx)
           · rw [hx]
             simp)
        | (intro x hx
           first
            | exact hg x hx
            | exact hg x (by simpa [afterEnable_fields] using hx))

/-- With a Direct3D interface, `reallocate` returns; a true result clears the flag and a
false result leaves it as it was. -/
theorem reallocate_flag (v : Vendor) (screens : List ScreenInfo) (g : Grabber)
    (hd3d : ∀ n, v.direct3DCreate9 n ≠ none) :
    ∃ b g1, reallocate v screens g = some (b, g1) ∧ Tracked g1
      ∧ (b = true → g1.m_reallocation_needed = false)
      ∧ (b = false → g1.m_reallocation_needed = g.m_reallocation_needed) := by
  obtain ⟨mons, hmons⟩ := Option.ne_none_iff_exists'.mp (hd3d (freeScreens g).calls)
  have hfree : Tracked { freeScreens g with calls := (freeScreens g).calls + 1 } := by
    intro x hx
    simp [freeScreens] at hx
  have hflag : ({ freeScreens g with calls := (freeScreens g).calls + 1 } : Grabber).m_reallocation_needed
      = g.m_reallocation_needed := by
    simp [freeScreens, freeScreensLoop_flag]
  have htr := reallocateLoop_tracked v mons screens _ hfree
  have hfl := reallocateLoop_flag v mons screens
    { freeScreens g with calls := (freeScreens g).calls + 1 }
  cases herr : (reallocateLoop v mons screens
      { freeScreens g with calls := (freeScreens g).calls + 1 }).1
  · refine ⟨true, { (reallocateLoop v mons screens
        { freeScreens g with calls := (freeScreens g).calls + 1 }).2 with
        m_reallocation_needed := false }, ?_, ?_, ?_, ?_⟩
    · simp [reallocate, hmons, herr]
    · exact htr
    · intro _; rfl
    · intro h; cases h
  · refine ⟨false, (reallocateLoop v mons screens
        { freeScreens g with calls := (freeScreens g).calls + 1 }).2, ?_, htr, ?_, ?_⟩
    · simp [reallocate, hmons, herr]
    · intro h; cases h
    · intro _
      rw [hfl, hflag]

theorem hitInvalidated_append (a b : List VendorCall) :
    hitInvalidated (a ++ b) = (hitInvalidated a || hitInvalidated b) := by
  induction a with
  | nil => simp [hitInvalidated]
  | cons c rest ih => cases c <;> simp [hitInvalidated, ih, Bool.or_assoc]

/-- The grab loop appends its calls to the log, and the flag afterwards is set exactly
when it was set before or one of these calls was answered with an invalidated
session. -/
theorem grabScreensLoop_log (v : Vendor) :
    ∀ (screens : List GrabbedScreen) (g : Grabber),
      (∀ sc ∈ screens, sc.associatedData ≠ none) →
      ∃ res g1 calls, grabScreensLoop v screens g = some (res, g1)
        ∧ g1.log = g.log ++ calls
        ∧ g1.m_reallocation_needed = (hitInvalidated calls || g.m_reallocation_needed)
        ∧ g1._screensWithWidgets = g._screensWithWidgets := by
  intro screens
  induction screens with
  | nil =>
    intro g _
    exact ⟨GrabResult.GrabResultOk, g, [], rfl, by simp, by simp [hitInvalidated], rfl⟩
  | cons sc rest ih =>
    intro g hs
    have hsc : sc.associatedData ≠ none := hs sc (List.mem_cons_self _ _)
    obtain ⟨sess, hsess⟩ := Option.ne_none_iff_exists'.mp hsc
    have hrest : ∀ x ∈ rest, x.associatedData ≠ none :=
      fun x hx => hs x (List.mem_cons_of_mem _ hx)
    by_cases hp : v.grabFrame g.calls = NVFBCRESULT.NVFBC_ERROR_PROTECTED_CONTENT
    · refine ⟨GrabResult.GrabResultError, ({ g with
            calls := g.calls + 1,
            log := g.log ++ [VendorCall.grabFrame sess (v.grabFrame g.calls)] } : Grabber),
        [VendorCall.grabFrame sess (v.grabFrame g.calls)], ?_, rfl, ?_, rfl⟩
      · simp [grabScreensLoop, hsess, hp]
      · simp [hitInvalidated, hp]
    · by_cases hi : v.grabFrame g.calls = NVFBCRESULT.NVFBC_ERROR_INVALIDATED_SESSION
      · refine ⟨GrabResult.GrabResultError, ({ g with
            calls := g.calls + 1,
            log := g.log ++ [VendorCall.grabFrame sess (v.grabFrame g.calls)],
            m_reallocation_needed := true } : Grabber),
          [VendorCall.grabFrame sess (v.grabFrame g.calls)], ?_, rfl, ?_, rfl⟩
        · simp [grabScreensLoop, hsess, hi]
        · simp [hitInvalidated, hi]
      · by_cases h0 : v.grabFrame g.calls = NVFBCRESULT.NVFBC_SUCCESS
        · obtain ⟨res, g1, calls, hrun, hlog, hflag, hscr⟩ :=
            ih { g with calls := g.calls + 1,
                        log := g.log ++ [VendorCall.grabFrame sess (v.grabFrame g.calls)] }
              hrest
          refine ⟨res, g1, VendorCall.grabFrame sess (v.grabFrame g.calls) :: calls,
            ?_, ?_, ?_, hscr⟩
          · simp only [grabScreensLoop, hsess, h0]
            simp only [h0] at hrun
            simpa using hrun
          · rw [hlog]
            simp
          · rw [hflag]
            simp [hitInvalidated, hi]
        · refine ⟨GrabResult.GrabResultError, ({ g with
            calls := g.calls + 1,
            log := g.log ++ [VendorCall.grabFrame sess (v.grabFrame g.calls)] } : Grabber),
            [VendorCall.grabFrame sess (v.grabFrame g.calls)], ?_, rfl, ?_, rfl⟩
          · simp [grabScreensLoop, hsess, hp, hi, h0]
          · simp [hitInvalidated, hi]

/-- One operation on a grabber whose tracked screens carry sessions returns, keeps that
property, and changes the flag as its observation says. -/
theorem step_flag (v : Vendor) (hd3d : ∀ n, v.direct3DCreate9 n ≠ none) (op : Op) (g : Grabber)
    (hg : Tracked g) :
    ∃ e g1, step v op g = some (e, g1) ∧ Tracked g1
      ∧ g1.m_reallocation_needed = flagAfter g.m_reallocation_needed [e] := by
  cases op with
  | onDownscaleFactorChange change =>
    by_cases h : toInt32 g.m_downscale_factor ≠ change
    · refine ⟨Event.factorChanged, onDownscaleFactorChange change g, ?_, ?_, ?_⟩
      · simp [step, h]
      · intro x hx
        exact hg x (by simpa [onDownscaleFactorChange, h] using hx)
      · simp [onDownscaleFactorChange, h, flagAfter]
    · refine ⟨Event.factorUnchanged, onDownscaleFactorChange change g, ?_, ?_, ?_⟩
      · simp [step, h]
      · intro x hx
        exact hg x (by simpa [onDownscaleFactorChange, h] using hx)
      · simp [onDownscaleFactorChange, h, flagAfter]
  | reallocate screens =>
    obtain ⟨b, g1, hrun, htr, ht, hf⟩ := reallocate_flag v screens g hd3d
    cases b
    · exact ⟨Event.reallocateFailed, g1, by simp [step, hrun], htr, by simp [flagAfter, hf]⟩
    · exact ⟨Event.reallocateSucceeded, g1, by simp [step, hrun], htr, by simp [flagAfter, ht]⟩
  | grabScreens =>
    obtain ⟨res, g1, calls, hrun, hlog, hflag, hscr⟩ :=
      grabScreensLoop_log v g._screensWithWidgets g hg
    have htr : Tracked g1 := by
      intro x hx
      exact hg x (by rw [← hscr]; exact hx)
    have hdrop : g1.log.drop g.log.length = calls := by
      rw [hlog]
      simp
    cases hh : hitInvalidated calls
    · refine ⟨Event.grabNotInvalidated, g1, ?_, htr, ?_⟩
      · simp [step, grabScreens, hrun, hdrop, hh]
      · simp [flagAfter, hflag, hh]
    · refine ⟨Event.grabInvalidated, g1, ?_, htr, ?_⟩
      · simp [step, grabScreens, hrun, hdrop, hh]
      · simp [flagAfter, hflag, hh]

theorem flagAfter_cons (f : Bool) (e : Event) (es : List Event) :
    flagAfter f (e :: es) = flagAfter (flagAfter f [e]) es := by
  cases e <;> simp [flagAfter]

/-- A sequence of operations returns, and the flag afterwards is the flag of the
history of observations. -/
theorem run_flag (v : Vendor) (hd3d : ∀ n, v.direct3DCreate9 n ≠ none) :
    ∀ (ops : List Op) (g : Grabber), Tracked g →
      ∃ es g1, run v ops g = some (es, g1) ∧ es.length = ops.length
        ∧ g1.m_reallocation_needed = flagAfter g.m_reallocation_needed es := by
  intro ops
  induction ops with
  | nil =>
    intro g _
    exact ⟨[], g, rfl, rfl, rfl⟩
  | cons op rest ih =>
    intro g hg
    obtain ⟨e, g1, hstep, htr, hflag⟩ := step_flag v hd3d op g hg
    obtain ⟨es, g2, hrun, hlen, hfl⟩ := ih g1 htr
    refine ⟨e :: es, g2, ?_, ?_, ?_⟩
    · simp [run, hstep, hrun]
    · simp [hlen]
    · rw [hfl, hflag, ← flagAfter_cons]

theorem flagAfter_no_success : ∀ (h : List Event) (f : Bool),
    Event.reallocateSucceeded ∉ h →
    (flagAfter f h = true ↔
      f = true ∨ Event.factorChanged ∈ h ∨ Event.grabInvalidated ∈ h) := by
  intro h
  induction h with
  | nil => intro f _; simp [flagAfter]
  | cons e rest ih =>
    intro f hno
    have hrest : Event.reallocateSucceeded ∉ rest := fun hm => hno (List.mem_cons_of_mem _ hm)
    cases e with
    | reallocateSucceeded => exact absurd (List.mem_cons_self _ _) hno
    | factorChanged => simp [flagAfter, ih true hrest]
    | grabInvalidated => simp [flagAfter, ih true hrest]
    | factorUnchanged => simp [flagAfter, ih f hrest]
    | reallocateFailed => simp [flagAfter, ih f hrest]
    | grabNotInvalidated => simp [flagAfter, ih f hrest]

theorem flagAfter_success : ∀ (before after : List Event) (f : Bool),
    flagAfter f (before ++ Event.reallocateSucceeded :: after) = flagAfter false after := by
  intro before
  induction before with
  | nil => intro after f; simp [flagAfter]
  | cons e rest ih =>
    intro after f
    cases e <;> simp [flagAfter, ih]

theorem last_success_split : ∀ (h : List Event), Event.reallocateSucceeded ∈ h →
    ∃ before after, h = before ++ Event.reallocateSucceeded :: after
      ∧ Event.reallocateSucceeded ∉ after := by
  intro h
  induction h with
  | nil => intro hm; cases hm
  | cons e rest ih =>
    intro hm
    by_cases hr : Event.reallocateSucceeded ∈ rest
    · obtain ⟨before, after, heq, hno⟩ := ih hr
      exact ⟨e :: before, after, by simp [heq], hno⟩
    · have he : e = Event.reallocateSucceeded := by
        rcases List.mem_cons.mp hm with h1 | h1
        · exact h1.symm
        · exact absurd h1 hr
      exact ⟨[], rest, by simp [he], hr⟩

/-- A flag that starts set is set after a history exactly when the history has no
successful reallocate, or has a factor change or an invalidated grab after its last
successful reallocate. -/
theorem flagAfter_true_iff (h : List Event) :
    flagAfter true h = true ↔
      (Event.reallocateSucceeded ∉ h
        ∨ ∃ before after, h = before ++ Event.reallocateSucceeded :: after
            ∧ Event.reallocateSucceeded ∉ after
            ∧ (Event.factorChanged ∈ after ∨ Event.grabInvalidated ∈ after)) := by
  constructor
  · intro hf
    by_cases hm : Event.reallocateSucceeded ∈ h
    · right
      obtain ⟨before, after, heq, hno⟩ := last_success_split h hm
      refine ⟨before, after, heq, hno, ?_⟩
      rw [heq, flagAfter_success] at hf
      have := (flagAfter_no_success after false hno).mp hf
      simpa using this
    · left
      exact hm
  · intro hc
    rcases hc with hno | ⟨before, after, heq, hno, hev⟩
    · exact (flagAfter_no_success h true hno).mpr (Or.inl rfl)
    · rw [heq, flagAfter_success]
      exact (flagAfter_no_success after false hno).mpr (Or.inr hev)

/-- C9: for every sequence of `onDownscaleFactorChange`, `reallocate` and `grabScreens`
calls on a freshly constructed grabber (with a vendor that always hands out a Direct3D
interface), the run returns and `isReallocationNeeded` is true at the end exactly when
no `reallocate` has succeeded, or when after the last successful `reallocate` there was
an `onDownscaleFactorChange` with a value different from the stored factor or a
`grabScreens` that met `NVFBC_ERROR_INVALIDATED_SESSION`.  A `reallocate` that returns
true leaves the flag cleared and one that returns false leaves it as it was. -/
theorem C9_reallocation_flag_history (v : Vendor) (ops : List Op)
    (hd3d : ∀ n, v.direct3DCreate9 n ≠ none) :
    (∃ history g, run v ops construct = some (history, g)
        ∧ history.length = ops.length
        ∧ (isReallocationNeeded g = true ↔
            (Event.reallocateSucceeded ∉ history
              ∨ ∃ before after, history = before ++ Event.reallocateSucceeded :: after
                  ∧ Event.reallocateSucceeded ∉ after
                  ∧ (Event.factorChanged ∈ after ∨ Event.grabInvalidated ∈ after))))
      ∧ (∀ screens g0 g1, reallocate v screens g0 = some (true, g1) →
          isReallocationNeeded g1 = false)
      ∧ (∀ screens g0 g1, reallocate v screens g0 = some (false, g1) →
          isReallocationNeeded g1 = isReallocationNeeded g0) := by
  refine ⟨?_, ?_, ?_⟩
  · have hc : Tracked construct := by
      intro x hx
      simp [construct] at hx
    obtain ⟨es, g, hrun, hlen, hflag⟩ := run_flag v hd3d ops construct hc
    refine ⟨es, g, hrun, hlen, ?_⟩
    have hinit : construct.m_reallocation_needed = true := rfl
    rw [isReallocationNeeded, hflag, hinit]
    exact flagAfter_true_iff es
  · intro screens g0 g1 h
    obtain ⟨b, g2, hrun, _, ht, _⟩ := reallocate_flag v screens g0 hd3d
    rw [h] at hrun
    have hb : true = b := congrArg Prod.fst (Option.some.inj hrun)
    have hg : g1 = g2 := congrArg Prod.snd (Option.some.inj hrun)
    rw [isReallocationNeeded, hg]
    exact ht hb.symm
  · intro screens g0 g1 h
    obtain ⟨b, g2, hrun, _, _, hf⟩ := reallocate_flag v screens g0 hd3d
    rw [h] at hrun
    have hb : false = b := congrArg Prod.fst (Option.some.inj hrun)
    have hg : g1 = g2 := congrArg Prod.snd (Option.some.inj hrun)
    rw [isReallocationNeeded, isReallocationNeeded, hg]
    exact hf hb.symm

/-- Witness for C9: a successful reallocate of one screen, a grab that meets an
invalidated session, and a factor change to the stored value. -/
theorem C9_reallocation_flag_history_witness :
    (∀ n, (vendorWithGrabs
          (fun _ => NVFBCRESULT.NVFBC_ERROR_INVALIDATED_SESSION)).direct3DCreate9 n ≠ none)
      ∧ ∃ history g,
        run (vendorWithGrabs (fun _ => NVFBCRESULT.NVFBC_ERROR_INVALIDATED_SESSION))
            [Op.reallocate [screenSeven], Op.grabScreens, Op.onDownscaleFactorChange 100]
            construct = some (history, g)
        ∧ history.length
            = [Op.reallocate [screenSeven], Op.grabScreens,
               Op.onDownscaleFactorChange 100].length :=
  ⟨fun _ => Option.some_ne_none _,
    match (C9_reallocation_flag_history
        (vendorWithGrabs (fun _ => NVFBCRESULT.NVFBC_ERROR_INVALIDATED_SESSION))
        [Op.reallocate [screenSeven], Op.grabScreens, Op.onDownscaleFactorChange 100]
        (fun _ => Option.some_ne_none _)).1 with
    | ⟨history, g, h1, h2, _⟩ => ⟨history, g, h1, h2⟩⟩

/-- C10 (a session is leaked when set-up fails): `reallocate` of one screen with a
vendor whose `NvFBCToSysSetUp` fails creates session 2, returns false, and leaves the
session live but absent from `_screensWithWidgets`; the next `reallocate` releases
nothing and leaks a second session, and the destructor releases nothing either. -/
theorem C10_session_leaked_when_setUp_fails :
    (reallocate vendorSetUpFails [screenSeven] construct).map
        (fun r => (r.1, r.2._screensWithWidgets, r.2.live, r.2.log))
        = some (false, [], [2],
            [VendorCall.getStatus 0 NVFBCRESULT.NVFBC_SUCCESS true,
             VendorCall.create 0 NVFBCRESULT.NVFBC_SUCCESS,
             VendorCall.setUp 2 (NVFBCRESULT.NVFBC_ERROR_OTHER 1)])
      ∧ ((reallocate vendorSetUpFails [screenSeven] construct).bind
          (fun r => reallocate vendorSetUpFails [screenSeven] r.2)).map
        (fun r => (r.1, r.2._screensWithWidgets, r.2.live, releasedIn r.2.log))
        = some (false, [], [2, 6], [])
      ∧ (reallocate vendorSetUpFails [screenSeven] construct).map
        (fun r => ((destruct r.2).live, releasedIn (destruct r.2).log))
        = some ([2], []) := by
  decide

/-! ### The administrator-rights advisory -/

theorem adminCount_append (a b : List VendorCall) :
    adminCount (a ++ b) = adminCount a + adminCount b := by
  induction a with
  | nil => simp [adminCount]
  | cons c rest ih =>
    cases c <;> simp [adminCount, ih]
    omega

theorem privilegeFailures_append (a b : List VendorCall) :
    privilegeFailures (a ++ b) = privilegeFailures a + privilegeFailures b := by
  induction a with
  | nil => simp [privilegeFailures]
  | cons c rest ih =>
    cases c <;> simp [privilegeFailures, ih]
    omega

/-- Releasing the tracked sessions schedules no message, meets no privilege failure and
keeps the latch. -/
theorem freeScreensLoop_admin : ∀ (screens : List GrabbedScreen) (g : Grabber),
    (freeScreensLoop screens g).m_admin_message_shown = g.m_admin_message_shown
      ∧ adminCount (freeScreensLoop screens g).log = adminCount g.log
      ∧ privilegeFailures (freeScreensLoop screens g).log = privilegeFailures g.log := by
  intro screens
  induction screens with
  | nil => intro g; exact ⟨rfl, rfl, rfl⟩
  | cons sc rest ih =>
    intro g
    cases h : sc.associatedData with
    | none => simpa [freeScreensLoop, h] using ih g
    | some x =>
      simp only [freeScreensLoop, h]
      obtain ⟨h1, h2, h3⟩ := ih
        { g with live := g.live.filter (fun y => y ≠ x),
                 log := g.log ++ [VendorCall.release x] }
      refine ⟨h1, ?_, ?_⟩
      · rw [h2]
        simp [adminCount_append, adminCount]
      · rw [h3]
        simp [privilegeFailures_append, privilegeFailures]

theorem AdvisoryStep_quiet (g m r : Grabber) (err : Bool)
    (hshown : m.m_admin_message_shown = g.m_admin_message_shown)
    (hpriv : privilegeFailures m.log = privilegeFailures g.log)
    (hadmin : adminCount m.log = adminCount g.log)
    (h : AdvisoryStep m r err) : AdvisoryStep g r err := by
  unfold AdvisoryStep at h ⊢
  rw [hshown, hpriv, hadmin] at h
  exact h

/-- The loop of `reallocate` treats the advisory as `AdvisoryStep` says. -/
theorem reallocateLoop_advisory (v : Vendor) (adapters : List Nat) :
    ∀ (screens : List ScreenInfo) (g : Grabber),
      AdvisoryStep g (reallocateLoop v adapters screens g).2
        (reallocateLoop v adapters screens g).1 := by
  intro screens
  induction screens with
  | nil =>
    intro g
    simp [reallocateLoop, AdvisoryStep]
  | cons sc rest ih =>
    intro g
    cases hfa : findAdapter sc.handle adapters 0 with
    | none => simp [reallocateLoop, hfa, AdvisoryStep]
    | some idx =>
      by_cases hst : (v.getStatus g.calls).1 = NVFBCRESULT.NVFBC_SUCCESS
      · by_cases hposs : (v.getStatus g.calls).2 = true
        · by_cases hcr : v.create (g.calls + 1) = NVFBCRESULT.NVFBC_SUCCESS
          · by_cases hsu : v.setUp (g.calls + 1 + 1) = NVFBCRESULT.NVFBC_SUCCESS
            · simp only [reallocateLoop, hfa, hst, hposs, hcr, hsu, Bool.not_true,
                Bool.false_eq_true, if_false, ne_eq, not_true_eq_false, not_false_eq_true]
              refine AdvisoryStep_quiet _ _ _ _ ?_ ?_ ?_ (ih _)
              · rfl
              · simp [privilegeFailures_append, privilegeFailures]
              · simp [adminCount_append, adminCount]
            · simp [reallocateLoop, hfa, hst, hposs, hcr, hsu, AdvisoryStep, adminCount_append,
                privilegeFailures_append, adminCount, privilegeFailures]
          · simp [reallocateLoop, hfa, hst, hposs, hcr, AdvisoryStep, adminCount_append,
              privilegeFailures_append, adminCount, privilegeFailures]
        · by_cases hpriv : v.enable (g.calls + 1)
              = NVFBCRESULT.NVFBC_ERROR_INSUFFICIENT_PRIVILEGES
          · cases hshown : g.m_admin_message_shown <;>
              simp [reallocateLoop, hfa, hst, hposs, hpriv, hshown, afterEnable, AdvisoryStep,
                adminCount_append, privilegeFailures_append, adminCount, privilegeFailures]
          · by_cases hen : v.enable (g.calls + 1) = NVFBCRESULT.NVFBC_SUCCESS
            · by_cases hcr : v.create (g.calls + 1 + 1) = NVFBCRESULT.NVFBC_SUCCESS
              · by_cases hsu : v.setUp (g.calls + 1 + 1 + 1) = NVFBCRESULT.NVFBC_SUCCESS
                · have hposs2 : (v.getStatus g.calls).2 = false := by simpa using hposs
                  simp only [reallocateLoop, hfa, hst, hposs2, hen, hcr, hsu, afterEnable,
                    Bool.not_true, Bool.not_false, Bool.false_eq_true, if_false, if_true, ne_eq,
                    not_true_eq_false, not_false_eq_true, reduceCtorEq]
                  refine AdvisoryStep_quiet _ _ _ _ ?_ ?_ ?_ (ih _)
                  · rfl
                  · simp [privilegeFailures_append, privilegeFailures]
                  · simp [adminCount_append, adminCount]
                · simp [reallocateLoop, hfa, hst, hposs, hpriv, hen, hcr, hsu, afterEnable,
                    AdvisoryStep, adminCount_append, privilegeFailures_append, adminCount,
                    privilegeFailures]
              · simp [reallocateLoop, hfa, hst, hposs, hpriv, hen, hcr, afterEnable,
                  AdvisoryStep, adminCount_append, privilegeFailures_append, adminCount,
                  privilegeFailures]
            · simp [reallocateLoop, hfa, hst, hposs, hpriv, hen, afterEnable, AdvisoryStep,
                adminCount_append, privilegeFailures_append, adminCount, privilegeFailures]
      · simp [reallocateLoop, hfa, hst, AdvisoryStep, adminCount_append,
          privilegeFailures_append, adminCount, privilegeFailures]

theorem AdvisoryStep_refl (g r : Grabber) (err : Bool)
    (hshown : r.m_admin_message_shown = g.m_admin_message_shown)
    (hpriv : privilegeFailures r.log = privilegeFailures g.log)
    (hadmin : adminCount r.log = adminCount g.log) : AdvisoryStep g r err := by
  unfold AdvisoryStep
  rw [hshown, hpriv, hadmin]
  simp

/-- A call of `reallocate` that returns `b` treats the advisory as `AdvisoryStep` says,
with the error flag `!b`. -/
theorem reallocate_advisory (v : Vendor) (screens : List ScreenInfo) (g : Grabber) (b : Bool)
    (g1 : Grabber) (h : reallocate v screens g = some (b, g1)) :
    AdvisoryStep g g1 (!b) := by
  obtain ⟨hf1, hf2, hf3⟩ := freeScreensLoop_admin g._screensWithWidgets g
  cases hd : v.direct3DCreate9 (freeScreens g).calls with
  | none => simp [reallocate, hd] at h
  | some mons =>
    have hloop := reallocateLoop_advisory v mons screens
      { freeScreens g with calls := (freeScreens g).calls + 1 }
    have hquiet : AdvisoryStep g (reallocateLoop v mons screens
          { freeScreens g with calls := (freeScreens g).calls + 1 }).2
        (reallocateLoop v mons screens
          { freeScreens g with calls := (freeScreens g).calls + 1 }).1 := by
      refine AdvisoryStep_quiet _ _ _ _ ?_ ?_ ?_ hloop
      · simpa [freeScreens] using hf1
      · simpa [freeScreens] using hf3
      · simpa [freeScreens] using hf2
    cases herr : (reallocateLoop v mons screens
        { freeScreens g with calls := (freeScreens g).calls + 1 }).1
    · simp only [reallocate, hd, herr, Bool.false_eq_true, if_false, Option.some.injEq,
        Prod.mk.injEq] at h
      obtain ⟨hb, hg⟩ := h
      rw [herr] at hquiet
      rw [← hb, ← hg]
      exact hquiet
    · simp only [reallocate, hd, herr, if_true, Option.some.injEq, Prod.mk.injEq] at h
      obtain ⟨hb, hg⟩ := h
      rw [herr] at hquiet
      rw [← hb, ← hg]
      exact hquiet

/-- The grab loop schedules no message, meets no privilege failure and keeps the
latch. -/
theorem grabScreensLoop_admin (v : Vendor) :
    ∀ (screens : List GrabbedScreen) (g : Grabber) (res : GrabResult) (g1 : Grabber),
      grabScreensLoop v screens g = some (res, g1) →
      g1.m_admin_message_shown = g.m_admin_message_shown
        ∧ privilegeFailures g1.log = privilegeFailures g.log
        ∧ adminCount g1.log = adminCount g.log := by
  intro screens
  induction screens with
  | nil =>
    intro g res g1 h
    simp only [grabScreensLoop, Option.some.injEq, Prod.mk.injEq] at h
    rw [← h.2]
    exact ⟨rfl, rfl, rfl⟩
  | cons sc rest ih =>
    intro g res g1 h
    cases hsess : sc.associatedData with
    | none => simp [grabScreensLoop, hsess] at h
    | some sess =>
      by_cases hp : v.grabFrame g.calls = NVFBCRESULT.NVFBC_ERROR_PROTECTED_CONTENT
      · simp only [grabScreensLoop, hsess, hp, if_true, Option.some.injEq, Prod.mk.injEq] at h
        rw [← h.2]
        simp [privilegeFailures_append, privilegeFailures, adminCount_append, adminCount]
      · by_cases hi : v.grabFrame g.calls = NVFBCRESULT.NVFBC_ERROR_INVALIDATED_SESSION
        · simp only [grabScreensLoop, hsess, hi, if_true, Option.some.injEq, Prod.mk.injEq,
            reduceCtorEq, if_false] at h
          rw [← h.2]
          simp [privilegeFailures_append, privilegeFailures, adminCount_append, adminCount]
        · by_cases h0 : v.grabFrame g.calls = NVFBCRESULT.NVFBC_SUCCESS
          · simp only [grabScreensLoop, hsess, h0, reduceCtorEq, if_false, ne_eq,
              not_true_eq_false] at h
            obtain ⟨h1, h2, h3⟩ := ih _ res g1 h
            refine ⟨h1, ?_, ?_⟩
            · rw [h2]
              simp [privilegeFailures_append, privilegeFailures]
            · rw [h3]
              simp [adminCount_append, adminCount]
          · simp only [grabScreensLoop, hsess, hp, hi, h0, if_false, ne_eq, not_false_eq_true,
              if_true, Option.some.injEq, Prod.mk.injEq] at h
            rw [← h.2]
            simp [privilegeFailures_append, privilegeFailures, adminCount_append, adminCount]

/-- Every operation treats the advisory as `AdvisoryStep` says. -/
theorem step_advisory (v : Vendor) (op : Op) (g : Grabber) (e : Event) (g1 : Grabber)
    (h : step v op g = some (e, g1)) : ∃ err, AdvisoryStep g g1 err := by
  cases op with
  | onDownscaleFactorChange change =>
    simp only [step, Option.some.injEq, Prod.mk.injEq] at h
    refine ⟨false, AdvisoryStep_refl _ _ _ ?_ ?_ ?_⟩ <;>
      (rw [← h.2]; unfold onDownscaleFactorChange; split_ifs <;> rfl)
  | reallocate screens =>
    cases hr : reallocate v screens g with
    | none => simp [step, hr] at h
    | some r =>
      obtain ⟨b, g2⟩ := r
      have hadv := reallocate_advisory v screens g b g2 hr
      cases b <;> simp only [step, hr, Option.some.injEq, Prod.mk.injEq] at h <;>
        exact ⟨_, h.2 ▸ hadv⟩
  | grabScreens =>
    cases hr : grabScreens v g with
    | none => simp [step, hr] at h
    | some r =>
      obtain ⟨res, g2⟩ := r
      simp only [step, hr, Option.some.injEq, Prod.mk.injEq] at h
      obtain ⟨h1, h2, h3⟩ := grabScreensLoop_admin v g._screensWithWidgets g res g2 hr
      rw [← h.2]
      exact ⟨false, AdvisoryStep_refl _ _ _ h1 h2 h3⟩

/-- Along a run the message box is scheduled at most once, and not at all while the
latch is clear; a set latch stays set. -/
theorem run_advisory (v : Vendor) :
    ∀ (ops : List Op) (g : Grabber) (es : List Event) (g1 : Grabber),
      run v ops g = some (es, g1) →
      adminCount g.log ≤ 1 → (g.m_admin_message_shown = false → adminCount g.log = 0) →
      adminCount g1.log ≤ 1 ∧ (g1.m_admin_message_shown = false → adminCount g1.log = 0) := by
  intro ops
  induction ops with
  | nil =>
    intro g es g1 h h1 h2
    simp only [run, Option.some.injEq, Prod.mk.injEq] at h
    rw [← h.2]
    exact ⟨h1, h2⟩
  | cons op rest ih =>
    intro g es g1 h h1 h2
    cases hs : step v op g with
    | none => simp [run, hs] at h
    | some r =>
      obtain ⟨e, gm⟩ := r
      cases hr : run v rest gm with
      | none => simp [run, hs, hr] at h
      | some r2 =>
        obtain ⟨es2, g2⟩ := r2
        simp only [run, hs, hr, Option.some.injEq, Prod.mk.injEq] at h
        obtain ⟨err, _, hshown, hcount, _⟩ := step_advisory v op g e gm hs
        have hm : adminCount gm.log ≤ 1
            ∧ (gm.m_admin_message_shown = false → adminCount gm.log = 0) := by
          cases hg : g.m_admin_message_shown
          · have h0 := h2 hg
            rw [hg] at hshown hcount
            by_cases hp : privilegeFailures g.log < privilegeFailures gm.log
            · simp [hp] at hshown hcount
              rw [hcount, h0, hshown]
              simp
            · simp [hp] at hshown hcount
              rw [hcount, h0]
              simp
          · rw [hg] at hshown hcount
            simp at hshown hcount
            rw [hcount, hshown]
            exact ⟨h1, by simp⟩
        rw [← h.2]
        exact ih gm es2 g2 hr hm.1 hm.2

/-- C11: over every sequence of operations on a freshly constructed grabber (with a
vendor that always hands out a Direct3D interface) the run returns and the
administrator-rights message box has been scheduled at most once.  A `reallocate` call
schedules it exactly when `m_admin_message_shown` is FALSE and the call meets
`NVFBC_ERROR_INSUFFICIENT_PRIVILEGES`, and then once; the latch afterwards is TRUE
exactly when it was TRUE or the call met a privilege failure; a call that meets a
privilege failure returns false; and no operation turns a TRUE latch back to FALSE. -/
theorem C11_admin_advisory_at_most_once (v : Vendor) (ops : List Op)
    (hd3d : ∀ n, v.direct3DCreate9 n ≠ none) :
    (∃ history g, run v ops construct = some (history, g) ∧ adminCount g.log ≤ 1)
      ∧ (∀ screens g0 b g1, reallocate v screens g0 = some (b, g1) →
          privilegeFailures g0.log ≤ privilegeFailures g1.log
          ∧ adminCount g1.log
              = adminCount g0.log
                + (if g0.m_admin_message_shown = false
                      ∧ privilegeFailures g0.log < privilegeFailures g1.log then 1 else 0)
          ∧ g1.m_admin_message_shown
              = (g0.m_admin_message_shown
                  || decide (privilegeFailures g0.log < privilegeFailures g1.log))
          ∧ (privilegeFailures g0.log < privilegeFailures g1.log → b = false))
      ∧ (∀ op g0 e g1, step v op g0 = some (e, g1) →
          g0.m_admin_message_shown = true → g1.m_admin_message_shown = true) := by
  refine ⟨?_, ?_, ?_⟩
  · have hc : Tracked construct := by
      intro x hx
      simp [construct] at hx
    obtain ⟨es, g, hrun, _, _⟩ := run_flag v hd3d ops construct hc
    have hadv := run_advisory v ops construct es g hrun (by decide) (by decide)
    exact ⟨es, g, hrun, hadv.1⟩
  · intro screens g0 b g1 h
    obtain ⟨h1, h2, h3, h4⟩ := reallocate_advisory v screens g0 b g1 h
    refine ⟨h1, h3, h2, ?_⟩
    intro hp
    have := h4 hp
    simpa using this
  · intro op g0 e g1 h hshown
    obtain ⟨err, _, h2, _⟩ := step_advisory v op g0 e g1 h
    rw [h2, hshown]
    rfl

/-- Witness for C11: two `reallocate` calls in a row with a vendor that refuses to
enable NvFBC for lack of privileges. -/
theorem C11_admin_advisory_at_most_once_witness :
    (∀ n, vendorNeedsAdmin.direct3DCreate9 n ≠ none)
      ∧ ∃ history g,
        run vendorNeedsAdmin [Op.reallocate [screenSeven], Op.reallocate [screenSeven]]
            construct = some (history, g)
        ∧ adminCount g.log ≤ 1 :=
  ⟨fun _ => Option.some_ne_none _,
    (C11_admin_advisory_at_most_once vendorNeedsAdmin
      [Op.reallocate [screenSeven], Op.reallocate [screenSeven]]
      (fun _ => Option.some_ne_none _)).1⟩

end NvFBCGrabber
